import Mathlib

/-!
Shallow embedding of the decision core of the quantstock-pro service.

Conventions used throughout this development:
* Source floats are modelled as exact rationals; a nullable float field
  (Python Optional, or a NaN produced by the indicator library) is an
  Option value.  Calendar dates that the source parses from strings are
  modelled by their signed day offset from the evaluation date.
* Rounding (the source rounds with a decimal digit count) is modelled by
  rounding to the nearest multiple of a power of ten; the source breaks
  exact ties to even while the model rounds half up.  No theorem below
  evaluates a rounding at an exact tie, and the tolerance lemmas only use
  the half-ulp bound that both conventions satisfy.
* External libraries (the indicator library feeding calculate_advanced_technicals)
  are not part of the repository; the row of indicator values they produce
  is a parameter of the embedded function.  Everything after that row is
  translated from the source.
-/

/-- Rounding to a given number of decimal digits (Python round(x, k) on the
rational idealisation; ties rounded half up instead of half to even). -/
def roundTo (k : ℕ) (q : ℚ) : ℚ := (round (q * (10 : ℚ) ^ k) : ℚ) / (10 : ℚ) ^ k

/-- Truthiness of an optional rational, mirroring Python where both None and
0.0 are falsy. -/
def qTruthy : Option ℚ → Bool
  | none => false
  | some v => v ≠ 0

/-- Value of an optional rational with Python-style defaulting (x if x else d). -/
def qOrElse (o : Option ℚ) (d : ℚ) : ℚ := if qTruthy o then o.getD d else d

/-- Comparison a > b where either side may be NaN/None (pandas comparisons with
NaN are false). -/
def optGt : Option ℚ → Option ℚ → Bool
  | some a, some b => a > b
  | _, _ => false

/-- Comparison a < b where either side may be NaN/None. -/
def optLt : Option ℚ → Option ℚ → Bool
  | some a, some b => a < b
  | _, _ => false

-- ===== models.py : enums =====

/-- TrendDirection enum from models.py. -/
inductive TrendDirection where
  | bullish
  | bearish
  | neutral
  | sideways
  | neutralTransition
deriving DecidableEq, Repr

/-- RiskLevel enum from models.py. -/
inductive RiskLevel where
  | low
  | moderate
  | high
  | veryHigh
  | unknown
deriving DecidableEq, Repr

/-- SetupState enum from models.py. -/
inductive SetupState where
  | valid
  | degraded
  | invalid
  | skipped
deriving DecidableEq, Repr

/-- SetupQuality enum from models.py. -/
inductive SetupQuality where
  | low
  | medium
  | high
deriving DecidableEq, Repr

/-- DataIntegrity enum from models.py. -/
inductive DataIntegrity where
  | valid
  | degraded
  | invalid
  | notEvaluated
deriving DecidableEq, Repr

/-- DecisionState enum from models.py. -/
inductive DecisionState where
  | accept
  | wait
  | reject
deriving DecidableEq, Repr

/-- TradeAction enum from models.py (PROBE/HOLD are never produced by the
embedded paths but kept for fidelity). -/
inductive TradeAction where
  | buy
  | sell
  | hold
  | wait
  | reject
  | probe
deriving DecidableEq, Repr

-- ===== models.py : records =====

/-- Technicals record from models.py: nullable numeric indicator fields plus
two enum fields. -/
structure Technicals where
  rsi : Option ℚ := none
  rsi_signal : TrendDirection := TrendDirection.neutral
  macd_line : Option ℚ := none
  macd_signal : Option ℚ := none
  macd_histogram : Option ℚ := none
  adx : Option ℚ := none
  atr : Option ℚ := none
  atr_percent : Option ℚ := none
  cci : Option ℚ := none
  bb_upper : Option ℚ := none
  bb_middle : Option ℚ := none
  bb_lower : Option ℚ := none
  bb_position : Option ℚ := none
  support_s1 : Option ℚ := none
  support_s2 : Option ℚ := none
  resistance_r1 : Option ℚ := none
  resistance_r2 : Option ℚ := none
  volume_avg_20d : Option ℚ := none
  volume_current : Option ℚ := none
  volume_ratio : Option ℚ := none
  ema_20 : Option ℚ := none
  ema_50 : Option ℚ := none
  ema_200 : Option ℚ := none
  trend_structure : TrendDirection := TrendDirection.neutral
deriving DecidableEq, Repr

/-- ScoreDetail record from models.py (legend strings of the source are
constant text and are dropped). -/
structure ScoreDetail where
  value : ℚ
  min_value : ℚ
  max_value : ℚ
  label : String
deriving DecidableEq, Repr

/-- AlgoSignal record from models.py. -/
structure AlgoSignal where
  overall_score : ScoreDetail
  trend_score : ScoreDetail
  momentum_score : ScoreDetail
  volatility_score : ScoreDetail
  volume_score : ScoreDetail
  volatility_risk : RiskLevel
  trend_strength : String
  confluence_score : ℤ
deriving DecidableEq, Repr

/-- InsiderTrade from models.py; the transaction date string is modelled by
its day offset into the past from the evaluation date. -/
structure InsiderTrade where
  isSell : Bool
  daysAgo : ℤ
deriving DecidableEq, Repr

/-- OptionSentiment from models.py (only the field read by the governor). -/
structure OptionSentiment where
  implied_volatility : ℚ
deriving DecidableEq, Repr

/-- AnalystPriceTarget from models.py (only the mean is read downstream). -/
structure AnalystPriceTarget where
  mean : Option ℚ
deriving DecidableEq, Repr

/-- UpcomingEvents from models.py; earnings_date is modelled as the signed
number of days until the earnings event (None when absent or unparseable). -/
structure UpcomingEvents where
  earningsInDays : Option ℤ
deriving DecidableEq, Repr

/-- MarketContext from models.py, restricted to the fields the decision core
reads.  analyst_ratings is modelled by its length since only emptiness is
consulted. -/
structure MarketContext where
  analystRatingsCount : ℕ := 0
  insider_activity : List InsiderTrade := []
  option_sentiment : Option OptionSentiment := none
  price_target : Option AnalystPriceTarget := none
  hasConsensus : Bool := false
  events : Option UpcomingEvents := none
deriving DecidableEq, Repr

/-- TradingDecision record from models.py. -/
structure TradingDecision where
  decision_state : DecisionState
  setup_state : SetupState
  confidence : ℚ
  primary_reason : String
  violation_rules : List String
  position_size_pct : ℚ
  max_capital_at_risk : ℚ
  risk_reward : ℚ
  stop_loss : Option ℚ
  take_profit : Option ℚ
  tp_targets : Option (List ℚ)
  entry_zone : Option (ℚ × ℚ)
  setup_quality : Option SetupQuality
deriving DecidableEq, Repr

/-- TradeSetup record from models.py (all numeric execution fields are
optional there, defaulting to None). -/
structure TradeSetup where
  action : TradeAction
  confidence : ScoreDetail
  entry_zone : Option (ℚ × ℚ) := none
  stop_loss : Option ℚ := none
  stop_loss_pct : Option ℚ := none
  take_profit_targets : Option (List ℚ) := none
  risk_reward : Option ℚ := none
  position_size_pct : Option ℚ := none
  max_capital_at_risk : Option ℚ := none
  setup_state : SetupState := SetupState.invalid
  setup_quality : Option SetupQuality := none
deriving DecidableEq, Repr

-- ===== settings.py : constants used by the embedded components =====

/-- settings.MAX_POSITION_PCT. -/
def settingsMaxPositionPct : ℚ := 5

/-- settings.MAX_CAPITAL_RISK_PCT. -/
def settingsMaxCapitalRiskPct : ℚ := 1/2

/-- settings.CONFIDENCE_THRESHOLD. -/
def settingsConfidenceThreshold : ℚ := 70

/-- settings.DEGRADED_POSITION_CAP. -/
def settingsDegradedPositionCap : ℚ := 1/2

/-- settings.ADX_TREND_THRESHOLD. -/
def settingsAdxTrendThreshold : ℚ := 15

/-- settings.INSIDER_SELL_THRESHOLD. -/
def settingsInsiderSellThreshold : ℕ := 3

/-- settings.INSIDER_SELL_WINDOW_DAYS. -/
def settingsInsiderSellWindowDays : ℤ := 90

-- ===== risk.py : RiskEngine =====

/-- RiskParameters dataclass from risk.py (defaults come from settings). -/
structure RiskParameters where
  max_position_pct : ℚ := settingsMaxPositionPct
  max_capital_risk_pct : ℚ := settingsMaxCapitalRiskPct
  confidence_threshold : ℚ := settingsConfidenceThreshold
  degraded_position_cap : ℚ := settingsDegradedPositionCap
deriving DecidableEq, Repr

/-- Default RiskParameters (RiskEngine() with no arguments). -/
def defaultRiskParameters : RiskParameters := {}

/-- Step 2 of RiskEngine.calculate_position_size from risk.py: the dynamic
liquidity cap (truthiness of the source skips it for None and for 0.0). -/
def liquidityAdjust (size : ℚ) (avg_volume_20d : Option ℚ) : ℚ :=
  if qTruthy avg_volume_20d then
    let v := avg_volume_20d.getD 0
    let liquidity_factor := min 1 (v / 500000)
    let size := size * liquidity_factor
    if v < 200000 then min size 1 else size
  else size

/-- Step 3 of RiskEngine.calculate_position_size: the hard volatility cap. -/
def volatilityAdjust (size sl_pct : ℚ) : ℚ :=
  if sl_pct > 5/100 then size * (1/2) else size

/-- Step 4 of RiskEngine.calculate_position_size: the earnings lock (the
parsed distance to the earnings date; None when absent or unparseable). -/
def earningsAdjust (size : ℚ) (earningsInDays : Option ℤ) : ℚ :=
  match earningsInDays with
  | some d => if 0 ≤ d ∧ d ≤ 21 then size * ((d : ℚ) / 21) else size
  | none => size

/-- RiskEngine.calculate_position_size from risk.py: risk-based sizing capped
by the (possibly DEGRADED-halved) position cap, then the numbered
liquidity, volatility and earnings adjustments.  The source raises
ZeroDivisionError when price = 0; no theorem below evaluates the embedding at
that point. -/
def calculate_position_size (params : RiskParameters) (setup_state : SetupState)
    (price risk_per_share : ℚ) (avg_volume_20d : Option ℚ)
    (earningsInDays : Option ℤ) : ℚ :=
  if risk_per_share ≤ 0 then 0
  else
    let max_position : ℚ :=
      if setup_state = SetupState.degraded then
        params.max_position_pct * params.degraded_position_cap
      else params.max_position_pct
    let max_risk_amount := params.max_capital_risk_pct / 100
    let sl_pct := risk_per_share / price
    let position_by_risk := (max_risk_amount * 100) / sl_pct
    let size := min max_position position_by_risk
    earningsAdjust (volatilityAdjust (liquidityAdjust size avg_volume_20d) sl_pct)
      earningsInDays

/-- RiskEngine.calculate_capital_at_risk from risk.py. -/
def calculate_capital_at_risk (position_size_pct risk_per_share price : ℚ) : ℚ :=
  if price ≤ 0 then 0
  else roundTo 4 (position_size_pct * (risk_per_share / price))

-- ===== executor.py : TradeExecutor =====

/-- TradeExecutor.calculate_levels from executor.py: (stop loss, take-profit
targets, entry zone) derived from price and ATR.  The atr fallback mirrors the
source truthiness (None or 0 both fall back to 1% of price). -/
def calculate_levels (action : TradeAction) (technicals : Technicals)
    (current_price : ℚ) : ℚ × List ℚ × (ℚ × ℚ) :=
  let atr := qOrElse technicals.atr (current_price * (1/100))
  if action = TradeAction.buy ∨ action = TradeAction.wait then
    (current_price - 2 * atr,
     [current_price + 2 * atr, current_price + 4 * atr],
     (current_price * (99/100), current_price * (101/100)))
  else if action = TradeAction.sell then
    (current_price + 2 * atr,
     [current_price - 2 * atr, current_price - 4 * atr],
     (current_price * (99/100), current_price * (101/100)))
  else
    (current_price, [current_price], (current_price, current_price))

/-- TradeExecutor.confidence_label from executor.py. -/
def confidence_label (val : ℚ) : String :=
  if val ≥ 80 then "Very High"
  else if val ≥ 70 then "High"
  else if val ≥ 50 then "Moderate"
  else if val ≥ 30 then "Low"
  else "Very Low"

/-- TradeExecutor.create_score_detail from executor.py. -/
def create_score_detail (value : ℚ) : ScoreDetail :=
  { value := value, min_value := 0, max_value := 100, label := confidence_label value }

-- ===== governor.py : UnifiedRejectionTracker and SignalGovernor =====

/-- UnifiedRejectionTracker is modelled as its list of violations.  The source
stores one string per violation, formatted from a rule code and a free-text
description with interpolated numbers; the model keeps only the rule code,
which is the component every downstream consumer branches on. -/
def trackerAdd (tracker : List String) (rule_code : String) : List String :=
  tracker ++ [rule_code]

/-- Locale check used by SignalGovernor.assess_data_integrity: the source tests
.NS / .BO suffixes and then any dot in the ticker, which the dot test
subsumes. -/
def isInternationalTicker (ticker : String) : Bool :=
  ticker.endsWith ".NS" || ticker.endsWith ".BO" || ticker.contains '.'

/-- SignalGovernor.assess_data_integrity from governor.py. -/
def assess_data_integrity (technicals : Technicals) (context : Option MarketContext)
    (ticker : String) : DataIntegrity :=
  if technicals.rsi = none ∨ technicals.macd_histogram = none then DataIntegrity.invalid
  else
    let poisoned_count : ℕ :=
      (if technicals.cci = none then 1 else 0) +
      (if technicals.volume_ratio = none then 1 else 0) +
      (match context with
       | some c =>
         match c.option_sentiment with
         | some os => if os.implied_volatility > 200 then 1 else 0
         | none => 0
       | none => 0)
    if poisoned_count > 0 then
      if isInternationalTicker ticker ∧ technicals.cci ≠ none then DataIntegrity.valid
      else DataIntegrity.degraded
    else DataIntegrity.valid

/-- SignalGovernor._count_recent_insider_sales from governor.py: sales whose
parsed date is within the window (dates are modelled by day offsets into the
past, all assumed parseable). -/
def countRecentInsiderSales (activity : List InsiderTrade) (days : ℤ) : ℕ :=
  (activity.filter (fun t => t.isSell ∧ t.daysAgo ≤ days)).length

/-- SignalGovernor.check_insider_trading from governor.py (Rule 1); the source
guard treats both a missing context and an empty activity list as falsy. -/
def check_insider_trading (tracker : List String) (context : Option MarketContext) :
    List String :=
  match context with
  | some c =>
    if c.insider_activity ≠ [] then
      if countRecentInsiderSales c.insider_activity settingsInsiderSellWindowDays ≥
          settingsInsiderSellThreshold then
        trackerAdd tracker "RULE_1_INSIDER_SELLS"
      else tracker
    else tracker
  | none => tracker

/-- SignalGovernor.check_earnings_risk from governor.py (Rule 4).  The
earnings-date string parse is modelled by the optional day distance. -/
def check_earnings_risk (tracker : List String) (context : Option MarketContext) :
    List String :=
  match context with
  | some c =>
    match c.events with
    | some ev =>
      match ev.earningsInDays with
      | some d =>
        if 0 ≤ d ∧ d ≤ 14 then trackerAdd tracker "RULE_4_EARNINGS_PROXIMITY"
        else if d < 0 then
          if d = -1 then trackerAdd tracker "RULE_4_EARNINGS_PROXIMITY" else tracker
        else tracker
      | none => tracker
    | none => tracker
  | none => tracker

/-- Fundamental fields consulted by the accrual-quality rule (Rule 5). -/
structure FundamentalsAccrualData where
  net_income : Option ℚ := none
  operating_cash_flow : Option ℚ := none
  total_assets : Option ℚ := none
deriving DecidableEq, Repr

/-- Modelled from the spec: AccrualQualityAnalyzer.calculate_sloan_ratio is
referenced by governor.py but absent from the repository.  Per the spec rule
R5 ACCRUAL_QUALITY, the Sloan ratio (net income minus operating cash flow,
over total assets) flags manipulation risk when it exceeds 0.10, and is only
evaluated when all three inputs are known.  Returns (ratio, status). -/
def calculate_sloan_ratio (ni ocf ta : Option ℚ) : ℚ × String :=
  match ni, ocf, ta with
  | some n, some o, some a =>
    let ratio := (n - o) / a
    (ratio, if ratio > 1/10 then "MANIPULATION_RISK_HIGH" else "ACCEPTABLE")
  | _, _, _ => (0, "DATA_MISSING")

/-- SignalGovernor.check_accrual_quality from governor.py (Rule 5); the
hasattr guards of the source always hold on the fundamentals record. -/
def check_accrual_quality (tracker : List String)
    (fundamentals : Option FundamentalsAccrualData) : List String :=
  match fundamentals with
  | some f =>
    let sloan := calculate_sloan_ratio f.net_income f.operating_cash_flow f.total_assets
    if sloan.2 = "MANIPULATION_RISK_HIGH" then
      trackerAdd tracker "RULE_5_EARNINGS_QUALITY_LOW"
    else tracker
  | none => tracker

/-- SignalGovernor.apply_trading_rules from governor.py. -/
def apply_trading_rules (tracker : List String) (technicals : Technicals)
    (context : Option MarketContext) (fundamentals : Option FundamentalsAccrualData) :
    List String :=
  let tracker := check_insider_trading tracker context
  let tracker :=
    match technicals.adx with
    | some a => if a < settingsAdxTrendThreshold then trackerAdd tracker "RULE_2_ADX_TREND" else tracker
    | none => tracker
  let tracker := check_earnings_risk tracker context
  check_accrual_quality tracker fundamentals

-- ===== technicals.py : calculate_algo_signal (the engine imported by service.py) =====

/-- Clamp helper matching the inline max/min pattern of the sources. -/
def clampQ (val min_v max_v : ℚ) : ℚ := max min_v (min max_v val)

/-- Normalisation helper norm(val, min, max) from technicals.py
calculate_algo_signal. -/
def normScale (val : Option ℚ) (cmin cmax : ℚ) : ℚ :=
  match val with
  | none => 0
  | some v =>
    if cmax = cmin then 0
    else max (-100) (min 100 (-100 + (v - cmin) * 200 / (cmax - cmin)))

/-- Confluence scorecard block of technicals.py calculate_algo_signal. -/
def techConfluence (t : Technicals) : ℤ :=
  let c : ℤ :=
    if t.trend_structure = TrendDirection.bullish ∨
       t.trend_structure = TrendDirection.bearish then 3 else 0
  let c :=
    match t.bb_position with
    | some bb =>
      if bb < 1/10 ∨ bb > 9/10 then c + 3
      else if bb < 2/10 ∨ bb > 8/10 then c + 2
      else c
    | none => c
  let c := match t.cci with
    | some v => if |v| > 150 then c + 2 else c
    | none => c
  match t.volume_ratio with
  | some v => if v > 12/10 then c + 2 else c
  | none => c

/-- Source file technicals.py, calculate_algo_signal: the weighted
null-degrading signal engine that service.py imports and runs. -/
def techCalculateAlgoSignal (t : Technicals) : AlgoSignal :=
  let trend_weight : ℚ := 35/100
  let momentum_weight : ℚ := 35/100
  let vol_weight : ℚ := 15/100
  let vol_score_weight : ℚ := 15/100
  let trendPart : ℚ × ℚ :=
    if t.adx ≠ none ∧ t.ema_50 ≠ none ∧ t.ema_200 ≠ none then
      let trend_raw :=
        (if t.trend_structure = TrendDirection.bullish then (1:ℚ) else -1) * 40 +
        (if t.ema_50.getD 0 > t.ema_200.getD 0 then (1:ℚ) else -1) * 40 +
        (t.adx.getD 0 / 100) * 20
      (max (-100) (min 100 trend_raw), trend_weight)
    else (0, 0)
  let trend_val := trendPart.1
  let momentumPart : ℚ × ℚ :=
    if t.rsi ≠ none ∧ t.macd_histogram ≠ none then
      let momentum_raw := (70 - t.rsi.getD 0) * (1/2) + t.macd_histogram.getD 0 * 10
      match t.cci with
      | some cci => (normScale (some (momentum_raw + cci / 2)) (-200) 200, momentum_weight)
      | none => (normScale (some momentum_raw) (-100) 100, momentum_weight * (6/10))
    else (0, 0)
  let momentum_val := momentumPart.1
  let volatilityPart : ℚ × ℚ :=
    match t.atr_percent with
    | some ap => (normScale (some (100 - ap * 20)) (-100) 100, vol_weight)
    | none => (0, 0)
  let volatility_val := volatilityPart.1
  let volumePart : ℚ × ℚ :=
    match t.volume_ratio with
    | some vr => (max (-50) (min 50 ((vr - 1) * 50)), vol_score_weight)
    | none => (0, 0)
  let volume_val := volumePart.1
  let valid_weights := trendPart.2 + momentumPart.2 + volatilityPart.2 + volumePart.2
  let overall_val :=
    if valid_weights > 1/10 then
      (trend_val * trend_weight + momentum_val * momentum_weight +
       volatility_val * vol_weight + volume_val * vol_score_weight) / valid_weights
    else 0
  let overall_val := max (-100) (min 100 overall_val)
  let confluence_score := techConfluence t
  let overall_val :=
    if confluence_score ≥ 7 ∧ |overall_val| < 50 then
      overall_val + (if overall_val ≥ 0 then 30 else -30)
    else overall_val
  let atr_val := t.atr_percent.getD 0
  { overall_score :=
      { value := overall_val, min_value := -100, max_value := 100,
        label := if overall_val > 50 then "Strong Buy"
                 else if overall_val < -50 then "Strong Sell" else "Hold/Neutral" },
    trend_score :=
      { value := trend_val, min_value := -100, max_value := 100,
        label := if trend_val > 0 then "Bullish" else "Bearish" },
    momentum_score :=
      { value := momentum_val, min_value := -100, max_value := 100,
        label := if |momentum_val| > 50 then "Strong" else "Moderate" },
    volatility_score :=
      { value := volatility_val, min_value := -100, max_value := 100,
        label := if volatility_val > 0 then "Stable" else "Volatile" },
    volume_score :=
      { value := volume_val, min_value := -100, max_value := 100,
        label := if volume_val > 0 then "Accumulation" else "Distribution" },
    volatility_risk :=
      if atr_val < 3/2 then RiskLevel.low
      else if atr_val < 3 then RiskLevel.moderate else RiskLevel.high,
    trend_strength :=
      if t.adx ≠ none ∧ t.adx.getD 0 > 25 then "Strong" else "Weak",
    confluence_score := confluence_score }

-- ===== technicals_scoring.py : calculate_algo_signal (probabilistic engine) =====

/-- Additive posterior win probability computed by technicals_scoring.py
calculate_algo_signal (steps 2-3 of the source, assuming the data gate of
step 1 already passed), including the final clamp to the interval
from 0.10 to 0.90. -/
def scoringPwin (t : Technicals) : ℚ :=
  let adx_val := qOrElse t.adx 0
  let is_trending := adx_val ≥ 20
  let atr_pct := qOrElse t.atr_percent 0
  let p : ℚ := 1/2
  let p :=
    if is_trending then
      let p := if t.trend_structure = TrendDirection.bullish then p + 15/100 else p
      let p :=
        if t.ema_50 ≠ none ∧ t.ema_200 ≠ none then
          if t.ema_50.getD 0 > t.ema_200.getD 0 then p + 10/100 else p
        else p
      let p := if t.macd_histogram.getD 0 > 0 then p + 5/100 else p
      if t.rsi.getD 0 > 75 then p - 10/100 else p
    else
      let p := if t.rsi.getD 0 < 30 then p + 15/100 else p
      let p :=
        if qTruthy t.bb_position ∧ t.bb_position.getD 0 < 1/10 then p + 10/100 else p
      if t.macd_histogram.getD 0 < -2 then p - 10/100 else p
  let p := if atr_pct > 35/10 then p - 15/100 else p
  clampQ p (1/10) (9/10)

/-- Source file technicals_scoring.py, calculate_algo_signal: the
probabilistic edge engine (the gate of step 1 returns the empty signal; the
remaining steps are built from the posterior probability). -/
def scoringCalculateAlgoSignal (t : Technicals) : AlgoSignal :=
  if t.rsi = none ∨ t.macd_histogram = none ∨ t.ema_50 = none then
    { overall_score := { value := 0, min_value := -100, max_value := 100, label := "Insufficient Data" },
      trend_score := { value := 0, min_value := 0, max_value := 100, label := "Unknown" },
      momentum_score := { value := 0, min_value := -100, max_value := 100, label := "Unknown" },
      volatility_score := { value := 0, min_value := -100, max_value := 100, label := "Unknown" },
      volume_score := { value := 0, min_value := -1, max_value := 2, label := "Unknown" },
      volatility_risk := RiskLevel.unknown, trend_strength := "Unknown", confluence_score := 0 }
  else
    let adx_val := qOrElse t.adx 0
    let is_trending := adx_val ≥ 20
    let atr_pct := qOrElse t.atr_percent 0
    let p_win := scoringPwin t
    let target_rr : ℚ := 2
    let ev := p_win * target_rr - (1 - p_win)
    let opportunity_score := (p_win - 1/2) * 200
    let stability := clampQ ((5/2 - atr_pct) * 40) (-100) 100
    let overall_val := opportunity_score * (7/10) + stability * (3/10)
    let confluence_score := ⌊p_win * 10⌋
    { overall_score :=
        { value := overall_val, min_value := -100, max_value := 100,
          label := if is_trending then "Trend Following" else "Mean Reversion / Range" },
      trend_score :=
        { value := adx_val, min_value := 0, max_value := 100,
          label := if adx_val > 30 then "Strong Trend"
                   else if is_trending then "Weak Trend" else "Mean Reversion" },
      momentum_score :=
        { value := opportunity_score, min_value := -100, max_value := 100,
          label := if p_win > 65/100 then "High Prob"
                   else if p_win > 1/2 then "Speculative" else "Low Prob" },
      volatility_score :=
        { value := stability, min_value := -100, max_value := 100,
          label := if stability > 0 then "Stable" else "High Risk" },
      volume_score :=
        { value := ev, min_value := -1, max_value := 2, label := "Expectancy" },
      volatility_risk :=
        if atr_pct < 3/2 then RiskLevel.low
        else if atr_pct < 3 then RiskLevel.moderate else RiskLevel.high,
      trend_strength := if adx_val > 25 then "Strong" else "Weak",
      confluence_score := confluence_score }

/-- Posterior win probability as the SPEC describes the ScoringEngine: start
at prior 0.5, convert to odds, multiply regime-selected likelihood ratios
(Trending: BULLISH 1.6 / BEARISH 0.6, ema comparison 1.25 else 0.8,
macd_histogram positive 1.15, rsi above 80 gives 0.7 and above 60 gives 1.2;
Range: rsi below 30 gives 1.7, above 70 gives 0.6, bb_position below 0.1
gives 1.4, above 0.9 gives 0.7, macd_histogram below -2 gives 0.8; global
0.75 when atr_percent exceeds 3.5), convert back to a probability, clamp to
the interval from 0.10 to 0.90.  This definition is written from the spec
text only, to be compared against the source engine. -/
def specOddsPwin (t : Technicals) : ℚ :=
  let adx_val := qOrElse t.adx 0
  let atr_pct := qOrElse t.atr_percent 0
  let odds : ℚ := (1/2) / (1 - 1/2)
  let odds :=
    if adx_val ≥ 20 then
      let odds :=
        if t.trend_structure = TrendDirection.bullish then odds * (16/10)
        else if t.trend_structure = TrendDirection.bearish then odds * (6/10)
        else odds
      let odds :=
        if t.ema_50.getD 0 > t.ema_200.getD 0 then odds * (125/100) else odds * (8/10)
      let odds := if t.macd_histogram.getD 0 > 0 then odds * (115/100) else odds
      if t.rsi.getD 0 > 80 then odds * (7/10)
      else if t.rsi.getD 0 > 60 then odds * (12/10)
      else odds
    else
      let odds := if t.rsi.getD 0 < 30 then odds * (17/10) else odds
      let odds := if t.rsi.getD 0 > 70 then odds * (6/10) else odds
      let odds := if t.bb_position.getD 0 < 1/10 then odds * (14/10) else odds
      let odds := if t.bb_position.getD 0 > 9/10 then odds * (7/10) else odds
      if t.macd_histogram.getD 0 < -2 then odds * (8/10) else odds
  let odds := if atr_pct > 35/10 then odds * (75/100) else odds
  clampQ (odds / (1 + odds)) (1/10) (9/10)

-- ===== service.py : QuantitativeTradingSystem =====

/-- QuantitativeTradingSystem._create_reject_decision from service.py. -/
def createRejectDecision (setup_state : SetupState) (reason : String)
    (violations : List String) : TradingDecision :=
  { decision_state := DecisionState.reject, setup_state := setup_state,
    confidence := 0, primary_reason := reason, violation_rules := violations,
    position_size_pct := 0, max_capital_at_risk := 0, risk_reward := 0,
    stop_loss := none, take_profit := none, tp_targets := none,
    entry_zone := none, setup_quality := none }

/-- QuantitativeTradingSystem._create_wait_decision from service.py. -/
def createWaitDecision (setup_state : SetupState) (confidence : ℚ)
    (reason : String) : TradingDecision :=
  { decision_state := DecisionState.wait, setup_state := setup_state,
    confidence := confidence, primary_reason := reason, violation_rules := [],
    position_size_pct := 0, max_capital_at_risk := 0, risk_reward := 0,
    stop_loss := none, take_profit := none, tp_targets := none,
    entry_zone := none, setup_quality := none }

/-- QuantitativeTradingSystem._calculate_base_confidence from service.py. -/
def calcBaseConfidence (algo_signal : AlgoSignal)
    (market_context : Option MarketContext) : ℚ :=
  let score : ℚ := 80
  let confluence := algo_signal.confluence_score
  let score :=
    if confluence < 4 then score - 30
    else if confluence < 6 then score - 10
    else if confluence ≥ 8 then score + 10
    else score
  let score := if algo_signal.volatility_risk = RiskLevel.high then score - 10 else score
  let score :=
    match market_context with
    | some c => if c.hasConsensus ∧ c.analystRatingsCount = 0 then score - 15 else score
    | none => score
  max 0 (min 100 score)

/-- QuantitativeTradingSystem._determine_quality from service.py. -/
def determineQuality (confidence : ℚ) (algo_signal : AlgoSignal) : SetupQuality :=
  if confidence > 85 ∧ algo_signal.volatility_risk = RiskLevel.low then SetupQuality.high
  else if confidence > 60 then SetupQuality.medium
  else SetupQuality.low

/-- QuantitativeTradingSystem._create_trade_decision from service.py. -/
def createTradeDecision (setup_state : SetupState) (technicals : Technicals)
    (confidence : ℚ) (quality : SetupQuality)
    (market_context : Option MarketContext) : TradingDecision :=
  let bias :=
    if technicals.trend_structure = TrendDirection.bullish then TradeAction.buy
    else TradeAction.sell
  let current_price := qOrElse technicals.ema_20 100
  let levels := calculate_levels bias technicals current_price
  let stop_loss := levels.1
  let tp_targets := levels.2.1
  let entry_zone := levels.2.2
  let risk_per_share := max |current_price - stop_loss| (1/100)
  let e_days : Option ℤ :=
    match market_context with
    | some c => match c.events with
      | some ev => ev.earningsInDays
      | none => none
    | none => none
  let position_size := calculate_position_size defaultRiskParameters setup_state
    current_price risk_per_share technicals.volume_avg_20d e_days
  let max_risk := calculate_capital_at_risk position_size risk_per_share current_price
  { decision_state := DecisionState.accept, setup_state := setup_state,
    confidence := confidence, primary_reason := "Trade setup approved",
    violation_rules := [], position_size_pct := position_size,
    max_capital_at_risk := max_risk,
    risk_reward := |tp_targets.headD 0 - current_price| / risk_per_share,
    stop_loss := some stop_loss, take_profit := some (tp_targets.headD 0),
    tp_targets := some tp_targets, entry_zone := some entry_zone,
    setup_quality := some quality }

/-- QuantitativeTradingSystem.analyze from service.py (the system is built
with the default risk parameters at module scope). -/
def tsAnalyze (technicals : Technicals) (algo_signal : AlgoSignal)
    (market_context : Option MarketContext)
    (fundamentals : Option FundamentalsAccrualData) (ticker : String) :
    TradingDecision :=
  let data_integrity := assess_data_integrity technicals market_context ticker
  if data_integrity = DataIntegrity.invalid then
    createRejectDecision SetupState.invalid "Critical data missing" ["RULE_0_DATA_INTEGRITY"]
  else
    let atr_pct := qOrElse technicals.atr_percent 0
    let adx_val := qOrElse technicals.adx 0
    if atr_pct > 3 ∧ adx_val < 20 then
      createRejectDecision SetupState.invalid "Market Regime Invalid" ["REGIME_CAPITAL_SHREDDER"]
    else
      let tracker := apply_trading_rules [] technicals market_context fundamentals
      if tracker ≠ [] then
        createRejectDecision SetupState.invalid "Violates framework rules" tracker
      else
        let base_confidence := calcBaseConfidence algo_signal market_context
        let score := algo_signal.overall_score.value
        let ev := algo_signal.volume_score.value
        let base_confidence := if ev < 2/10 then min base_confidence 40 else base_confidence
        let score := if ev < 2/10 ∧ score > 0 then score / 2 else score
        if |score| < 20 ∨ base_confidence < defaultRiskParameters.confidence_threshold then
          createWaitDecision SetupState.valid base_confidence "Insufficient signals or Low EV"
        else
          createTradeDecision SetupState.valid technicals base_confidence
            (determineQuality base_confidence algo_signal) market_context

/-- QuantitativeTradingSystem.pre_screen from service.py, modelled by the
violations it accumulates (None when the pre-screen passes). -/
def preScreen (market_context : Option MarketContext) : Option (List String) :=
  match market_context with
  | some _ =>
    let tracker := check_insider_trading [] market_context
    let tracker := check_earnings_risk tracker market_context
    if tracker ≠ [] then some tracker else none
  | none => none

-- ===== service.py : _process_horizon =====

/-- Result of _process_horizon for one horizon (setup, technicals, signal,
decision). -/
structure HorizonOutcome where
  setup : TradeSetup
  tech : Technicals
  sig : AlgoSignal
  dec : TradingDecision
deriving DecidableEq, Repr

/-- Source file service.py, _process_horizon, from the point where the
indicator row has been computed: the signal, the trading decision, the
risk-reward downgrade and the WAIT nulling, and the TradeSetup assembly. -/
def processHorizon (tech : Technicals) (current_price : ℚ)
    (market_context : Option MarketContext) (ticker : String) : HorizonOutcome :=
  let sig := techCalculateAlgoSignal tech
  let dec := tsAnalyze tech sig market_context none ticker
  let action :=
    if dec.decision_state = DecisionState.reject then TradeAction.reject
    else if dec.decision_state = DecisionState.wait then TradeAction.wait
    else if sig.overall_score.value > 0 then TradeAction.buy else TradeAction.sell
  let levels := calculate_levels action tech current_price
  let sl := levels.1
  let tp := levels.2.1
  let entry := levels.2.2
  let rr : ℚ :=
    if sl ≠ 0 then |tp.headD 0 - current_price| / max |current_price - sl| (1/100)
    else 0
  let downgraded := dec.decision_state = DecisionState.accept ∧ rr < 1
  let dec :=
    if downgraded then
      { dec with decision_state := DecisionState.reject,
                 primary_reason := "Mathematically Invalid: R:R below 1.0" }
    else dec
  let action := if downgraded then TradeAction.reject else action
  let slOpt : Option ℚ := if downgraded then none else some sl
  let tpOpt : Option (List ℚ) := if downgraded then none else some tp
  let entryOpt : Option (ℚ × ℚ) := if downgraded then none else some entry
  let rr := if downgraded then 0 else rr
  let isWait := action = TradeAction.wait
  let dec :=
    if isWait then
      { dec with setup_state := SetupState.invalid,
                 position_size_pct := 0, max_capital_at_risk := 0 }
    else dec
  let slOpt := if isWait then none else slOpt
  let tpOpt := if isWait then none else tpOpt
  let entryOpt := if isWait then none else entryOpt
  let rr := if isWait then 0 else rr
  let sl_pct : Option ℚ :=
    match slOpt with
    | some s =>
      if current_price ≠ 0 ∧ s ≠ 0 then some ((|current_price - s| / current_price) * 100)
      else none
    | none => none
  { setup :=
      { action := action, confidence := create_score_detail dec.confidence,
        entry_zone := entryOpt, stop_loss := slOpt, stop_loss_pct := sl_pct,
        take_profit_targets := tpOpt, risk_reward := some rr,
        position_size_pct := some dec.position_size_pct,
        max_capital_at_risk := some dec.max_capital_at_risk,
        setup_state := dec.setup_state, setup_quality := dec.setup_quality },
    tech := tech, sig := sig, dec := dec }

-- ===== service.py : get_technical_analysis (decision-relevant core) =====

/-- Market data for one horizon after a successful fetch: the indicator row
already computed into a Technicals record, plus the current price. -/
structure HorizonData where
  tech : Technicals
  current_price : ℚ
deriving DecidableEq, Repr

/-- Decision-relevant projection of TechnicalStockResponse from models.py
(metadata fields such as company name and timestamps are omitted). -/
structure TechResponseModel where
  setupIntraday : Option TradeSetup
  setupSwing : Option TradeSetup
  setupPositional : Option TradeSetup
  setupLongterm : Option TradeSetup
  data_confidence : ℚ
  data_integrity : DataIntegrity
  technicals : Option Technicals
  algo_signal : Option AlgoSignal
  current_price : ℚ
  trade_setup : TradeSetup
  decision_state : DecisionState
deriving DecidableEq, Repr

/-- Placeholder reject setup built inline by get_technical_analysis for the
pre-screen path (all numeric fields keep their None defaults). -/
def rejectSetup : TradeSetup :=
  { action := TradeAction.reject,
    confidence := { value := 0, min_value := 0, max_value := 100, label := "Rejected" },
    setup_state := SetupState.skipped }

/-- Directional vote of one horizon signal (the dirs list of
get_technical_analysis). -/
def signalDir (sig : AlgoSignal) : ℤ :=
  if sig.overall_score.value > 20 then 1
  else if sig.overall_score.value < -20 then -1
  else 0

/-- Nulling applied by get_technical_analysis to every setup when the global
confidence falls below 25. -/
def nullSetupLevels (s : TradeSetup) : TradeSetup :=
  { s with entry_zone := none, stop_loss := none, take_profit_targets := none,
           position_size_pct := some 0, max_capital_at_risk := some 0 }

/-- Source file service.py, get_technical_analysis: pre-screen gate, the four
_process_horizon runs, the directional-conflict halving, the low-confidence
nulling, and the response assembly.  fallbackPrice models the shallow
price-only fetch of the pre-screen path. -/
def techAnalysis (market_context : Option MarketContext) (ticker : String)
    (fallbackPrice : ℚ)
    (intraday swing positional longterm : Option HorizonData) : TechResponseModel :=
  match preScreen market_context with
  | some _ =>
    { setupIntraday := some rejectSetup, setupSwing := some rejectSetup,
      setupPositional := some rejectSetup, setupLongterm := some rejectSetup,
      data_confidence := 100, data_integrity := DataIntegrity.notEvaluated,
      technicals := none, algo_signal := none, current_price := fallbackPrice,
      trade_setup := rejectSetup, decision_state := DecisionState.reject }
  | none =>
    let oIntraday := intraday.map (fun hd => processHorizon hd.tech hd.current_price market_context ticker)
    let oSwing := swing.map (fun hd => processHorizon hd.tech hd.current_price market_context ticker)
    let oPositional := positional.map (fun hd => processHorizon hd.tech hd.current_price market_context ticker)
    let oLongterm := longterm.map (fun hd => processHorizon hd.tech hd.current_price market_context ticker)
    let primary_dec := oSwing.map (fun o => o.dec)
    let global_conf := match primary_dec with
      | some d => d.confidence
      | none => 0
    let dirs := ([oIntraday, oSwing, oPositional].filterMap id).map (fun o => signalDir o.sig)
    let global_conf :=
      if dirs.dedup.length > 1 ∧ ¬ (0 ∈ dirs) then global_conf * (1/2) else global_conf
    let adjust : Option HorizonOutcome → Option TradeSetup := fun o =>
      o.map (fun oc => if global_conf < 25 then nullSetupLevels oc.setup else oc.setup)
    let primary_data := swing.orElse (fun _ => (intraday.orElse (fun _ =>
      (positional.orElse (fun _ => longterm)))))
    match primary_data with
    | none =>
      { setupIntraday := adjust oIntraday, setupSwing := adjust oSwing,
        setupPositional := adjust oPositional, setupLongterm := adjust oLongterm,
        data_confidence := 0, data_integrity := DataIntegrity.invalid,
        technicals := none, algo_signal := none, current_price := 0,
        trade_setup := rejectSetup, decision_state := DecisionState.reject }
    | some pd =>
      { setupIntraday := adjust oIntraday, setupSwing := adjust oSwing,
        setupPositional := adjust oPositional, setupLongterm := adjust oLongterm,
        data_confidence := global_conf,
        data_integrity := if global_conf > 25 then DataIntegrity.valid else DataIntegrity.degraded,
        technicals := oSwing.map (fun o => o.tech),
        algo_signal := oSwing.map (fun o => o.sig),
        current_price := pd.current_price,
        trade_setup := (adjust oSwing).getD rejectSetup,
        decision_state := match primary_dec with
          | some d => d.decision_state
          | none => DecisionState.wait }

-- ===== service.py : analyze_stock (authority layer and signal math) =====

/-- HorizonPerspective from models.py (the numeric fields the authority layer
touches). -/
structure AIHorizon where
  action : TradeAction
  confidence : ℚ
  entry_price : ℚ
  target_price : ℚ
  stop_loss : ℚ
deriving DecidableEq, Repr

/-- AIAnalysisResult from models.py, restricted to the four horizon
perspectives the confidence ceiling iterates over. -/
structure AIAnalysis where
  intraday : Option AIHorizon := none
  swing : Option AIHorizon := none
  positional : Option AIHorizon := none
  longterm : Option AIHorizon := none
deriving DecidableEq, Repr

/-- Enforcement applied to one horizon by _enforce_confidence_ceiling from
service.py. -/
def enforceHorizon (ceiling : ℚ) (is_authorized : Bool) (h : AIHorizon) : AIHorizon :=
  let h := { h with confidence := min h.confidence ceiling }
  if is_authorized then h
  else { h with entry_price := 0, target_price := 0, stop_loss := 0 }

/-- Source file service.py, _enforce_confidence_ceiling. -/
def enforceConfidenceCeiling (ai : AIAnalysis) (ceiling : ℚ) (is_authorized : Bool) :
    AIAnalysis :=
  { intraday := ai.intraday.map (enforceHorizon ceiling is_authorized),
    swing := ai.swing.map (enforceHorizon ceiling is_authorized),
    positional := ai.positional.map (enforceHorizon ceiling is_authorized),
    longterm := ai.longterm.map (enforceHorizon ceiling is_authorized) }

/-- Modelled from the spec: get_empty_algo_signal is imported by service.py
from technicals_scoring.py but absent from the repository; it is modelled
after the adjacent _empty_signal fallback (an all-zero signal with UNKNOWN
labels), which the spec describes as the Insufficient Data signal with
zeros. -/
def getEmptyAlgoSignal : AlgoSignal :=
  { overall_score := { value := 0, min_value := -100, max_value := 100, label := "Insufficient Data" },
    trend_score := { value := 0, min_value := 0, max_value := 100, label := "Unknown" },
    momentum_score := { value := 0, min_value := -100, max_value := 100, label := "Unknown" },
    volatility_score := { value := 0, min_value := -100, max_value := 100, label := "Unknown" },
    volume_score := { value := 0, min_value := -1, max_value := 2, label := "Unknown" },
    volatility_risk := RiskLevel.unknown, trend_strength := "Unknown", confluence_score := 0 }

/-- Count of entries of the data_state_taxonomy map assembled by
analyze_stock (OPTIONS, INSIDER, and TECHNICALS or CCI; the latter two are
mutually exclusive branches). -/
def taxonomyCount (market_context : Option MarketContext) (tech : Option Technicals) : ℕ :=
  (match market_context with
   | some c => if c.option_sentiment = none then 1 else 0
   | none => 1) +
  (match market_context with
   | some c => if c.insider_activity = [] then 1 else 0
   | none => 1) +
  (match tech with
   | none => 1
   | some t => if t.cci = none then 1 else 0)

/-- Decision-relevant projection of the assembled AdvancedStockResponse:
system confidence, integrity, signal math, veto state and the enforced
narrative block. -/
structure AdvancedResponseModel where
  system_confidence : ℚ
  data_integrity : DataIntegrity
  primary_signal : ℚ
  comp_trend : ℚ
  comp_momentum : ℚ
  comp_expectancy : ℚ
  comp_valuation : ℚ
  hard_veto : Bool
  is_authorized : Bool
  ai : Option AIAnalysis
deriving DecidableEq, Repr

/-- Blindness caps of analyze_stock applied to tech_resp.data_confidence:
the DEGRADED cap at 40 followed by the missing-data multiplier
(1 minus 0.15 per taxonomy entry). -/
def advancedGlobalConf (dataConf : ℚ) (integ : DataIntegrity) (missing : ℕ) : ℚ :=
  let g := if integ = DataIntegrity.degraded then min dataConf 40 else dataConf
  if missing > 0 then g * (1 - (15/100) * missing) else g

/-- Expectancy component of the analyze_stock signal math. -/
def expectancyVal (sig : AlgoSignal) : ℚ :=
  if sig.confluence_score > 5 then (sig.volume_score.value - 50) / 50 else 0

/-- primary_signal_strength of analyze_stock: the 30/20/25/25 weighting with
the trend component floored at zero and all terms rounded as in the source. -/
def primarySignal (sig : AlgoSignal) (is_overvalued : Bool) : ℚ :=
  let t_comp :=
    if sig.trend_score.value > 0 then roundTo 3 (sig.trend_score.value / 100) else 0
  let m_comp := roundTo 3 (sig.momentum_score.value / 100)
  let v_comp : ℚ := if is_overvalued then -1 else 1
  roundTo 3 (t_comp * (3/10) + m_comp * (2/10) + expectancyVal sig * (25/100) +
             v_comp * (25/100))

/-- Component scores of the signals block of analyze_stock
(trend, momentum, expectancy, valuation). -/
def signalComponents (sig : AlgoSignal) (is_overvalued : Bool) : ℚ × ℚ × ℚ × ℚ :=
  (roundTo 2 (sig.trend_score.value / 100),
   roundTo 2 (sig.momentum_score.value / 100),
   roundTo 2 (expectancyVal sig),
   if is_overvalued then (-1 : ℚ) else 1)

/-- Source file service.py, analyze_stock: veto detection, data-state
taxonomy, blindness caps, signal math (30/20/25/25 weighting), confidence
ceiling enforcement and the system block (confidence rounded to one decimal
digit).  The narrative itself is external; ai0 is its parsed result when the
synthesis ran. -/
def assembleAdvanced (techResp : TechResponseModel) (market_context : Option MarketContext)
    (ai0 : Option AIAnalysis) : AdvancedResponseModel :=
  let adx_val := match techResp.technicals with
    | some t => t.adx.getD 0
    | none => 0
  let price := techResp.current_price
  let target : Option ℚ := match market_context with
    | some c => match c.price_target with
      | some pt => pt.mean
      | none => none
    | none => none
  let is_overvalued := qTruthy target ∧ price > target.getD 0 * (104/100)
  let hard_veto := adx_val < 20 ∧ is_overvalued
  let missing := taxonomyCount market_context techResp.technicals
  let data_integrity :=
    if missing > 0 then DataIntegrity.degraded else techResp.data_integrity
  let global_conf := advancedGlobalConf techResp.data_confidence techResp.data_integrity missing
  let is_authorized :=
    global_conf ≥ 40 ∧ data_integrity = DataIntegrity.valid ∧ ¬ hard_veto ∧
    techResp.technicals ≠ none
  let sig := techResp.algo_signal.getD getEmptyAlgoSignal
  let comps := signalComponents sig is_overvalued
  let ai := ai0.map (fun a => enforceConfidenceCeiling a global_conf is_authorized)
  { system_confidence := roundTo 1 global_conf,
    data_integrity := data_integrity,
    primary_signal := primarySignal sig is_overvalued,
    comp_trend := comps.1,
    comp_momentum := comps.2.1,
    comp_expectancy := comps.2.2.1,
    comp_valuation := comps.2.2.2,
    hard_veto := hard_veto,
    is_authorized := is_authorized,
    ai := ai }

-- ===== technicals.py / technicals_indicators.py : IndicatorEngine =====

/-- OHLCV bar. -/
structure Bar where
  openPrice : ℚ
  high : ℚ
  low : ℚ
  close : ℚ
  volume : ℚ
deriving DecidableEq, Repr

/-- Last-row values of the indicator columns that the external indicator
library computes over the series (None models a NaN cell).  Everything the
source derives from this row is embedded below. -/
structure IndicatorRow where
  rsi : Option ℚ := none
  macd : Option ℚ := none
  macdSignal : Option ℚ := none
  macdHistogram : Option ℚ := none
  adx : Option ℚ := none
  atr : Option ℚ := none
  atrPercent : Option ℚ := none
  cci : Option ℚ := none
  bbUpper : Option ℚ := none
  bbMiddle : Option ℚ := none
  bbLower : Option ℚ := none
  bbPosition : Option ℚ := none
  ema20 : Option ℚ := none
  ema50 : Option ℚ := none
  ema200 : Option ℚ := none
  volumeMa20 : Option ℚ := none
deriving DecidableEq, Repr

/-- CCI poison check of technicals.py (lines 92-97): the final CCI is nulled
when its magnitude exceeds 500 or it is NaN. -/
def cciPoisonCheck (cci_val : Option ℚ) : Option ℚ :=
  match cci_val with
  | some v => if |v| > 500 then none else some v
  | none => none

/-- Volume-ratio poison check of technicals.py (lines 99-104): nulled when
negative, above 50, or NaN. -/
def volRatioPoisonCheck (vol_ratio_val : Option ℚ) : Option ℚ :=
  match vol_ratio_val with
  | some v => if v < 0 ∨ v > 50 then none else some v
  | none => none

/-- CCI poison check of technicals_indicators.py (lines 162-171): the value is
kept only when its magnitude is strictly below 5000 (NaN cannot reach this
point because the column was forward-filled and zero-filled). -/
def cciPoisonCheckTI (latest_cci : Option ℚ) : Option ℚ :=
  match latest_cci with
  | some v => if |v| < 5000 then some v else none
  | none => none

/-- Volume-ratio poison check of technicals_indicators.py (lines 173-178):
nulled when negative or above 100. -/
def volRatioPoisonCheckTI (vol_ratio_val : Option ℚ) : Option ℚ :=
  match vol_ratio_val with
  | some v => if v < 0 ∨ v > 100 then none else some v
  | none => none

/-- Trend-structure determination shared by both indicator engines (ADX-gated;
float comparisons against NaN are false). -/
def emaTrend (close : ℚ) (ema20 ema50 ema200 : Option ℚ) (adx : ℚ) : TrendDirection :=
  let above_all := optGt (some close) ema20 ∧ optGt (some close) ema50 ∧ optGt (some close) ema200
  let below_all := optLt (some close) ema20 ∧ optLt (some close) ema50 ∧ optLt (some close) ema200
  if adx < 20 then TrendDirection.neutralTransition
  else if above_all then TrendDirection.bullish
  else if below_all then TrendDirection.bearish
  else if optGt (some close) ema200 ∧ optGt ema50 ema200 then TrendDirection.bullish
  else if optLt (some close) ema200 ∧ optLt ema50 ema200 then TrendDirection.bearish
  else TrendDirection.neutral

/-- Source file technicals.py, calculate_advanced_technicals: the engine that
service.py imports.  There is no series-length gate: pivots, trend structure,
poison checks and packaging all run on the last row regardless of length.
The indicator columns come from the external library (parameter ind); the
volume ratio is the source division Volume over Volume_MA_20 (the source
yields inf or NaN on a zero or NaN mean; theorems only evaluate nonzero
means).  The source raises on an empty frame, so theorems use non-empty
series. -/
def calcAdvTech (ind : IndicatorRow) (series : List Bar) : Technicals :=
  let latest := series.getLastD { openPrice := 0, high := 0, low := 0, close := 0, volume := 0 }
  let pivot := (latest.high + latest.low + latest.close) / 3
  let r1 := 2 * pivot - latest.low
  let r2 := pivot + (latest.high - latest.low)
  let s1 := 2 * pivot - latest.high
  let s2 := pivot - (latest.high - latest.low)
  let adx := ind.adx.getD 0
  let vol_ratio_val := ind.volumeMa20.map (fun m => latest.volume / m)
  { rsi := ind.rsi,
    rsi_signal :=
      if optLt ind.rsi (some 30) then TrendDirection.bullish
      else if optGt ind.rsi (some 70) then TrendDirection.bearish
      else TrendDirection.neutral,
    macd_line := ind.macd,
    macd_signal := ind.macdSignal,
    macd_histogram := ind.macdHistogram,
    adx := ind.adx,
    atr := ind.atr,
    atr_percent := ind.atrPercent,
    cci := cciPoisonCheck ind.cci,
    bb_upper := ind.bbUpper,
    bb_middle := ind.bbMiddle,
    bb_lower := ind.bbLower,
    bb_position := ind.bbPosition,
    support_s1 := some s1,
    support_s2 := some s2,
    resistance_r1 := some r1,
    resistance_r2 := some r2,
    volume_avg_20d := ind.volumeMa20,
    volume_current := some latest.volume,
    volume_ratio := volRatioPoisonCheck vol_ratio_val,
    ema_20 := ind.ema20,
    ema_50 := ind.ema50,
    ema_200 := ind.ema200,
    trend_structure := emaTrend latest.close ind.ema20 ind.ema50 ind.ema200 adx }

/-- All-null Technicals record returned by the length gate of
technicals_indicators.py (lines 12-24): every numeric field None, both enums
NEUTRAL. -/
def emptyTechnicalsGate : Technicals :=
  { rsi := none, rsi_signal := TrendDirection.neutral,
    macd_line := none, macd_signal := none, macd_histogram := none,
    adx := none, atr := none, atr_percent := none, cci := none,
    bb_upper := none, bb_middle := none, bb_lower := none, bb_position := none,
    support_s1 := none, support_s2 := none, resistance_r1 := none, resistance_r2 := none,
    volume_avg_20d := none, volume_current := none, volume_ratio := none,
    ema_20 := none, ema_50 := none, ema_200 := none,
    trend_structure := TrendDirection.neutral }

/-- Source file technicals_indicators.py, calculate_advanced_technicals,
reduced to its series-length gate: below 50 rows the all-null record is
returned; otherwise the library-driven main branch runs (abstracted here as
the parameter mainResult). -/
def calcAdvTechGateTI (series : List Bar) (mainResult : Technicals) : Technicals :=
  if series.isEmpty ∨ series.length < 50 then emptyTechnicalsGate else mainResult

-- ===== fundamentals_analytics.py : IntrinsicValuationEngine.calculate_dcf =====

/-- Sector growth benchmark (settings.SECTOR_BENCHMARKS, growth key). -/
def sectorBenchGrowth : String → ℚ
  | "Technology" => 1/5
  | "Healthcare" => 3/20
  | "Financial Services" => 2/25
  | "Energy" => 1/20
  | _ => 1/10

/-- Sector FCF-margin benchmark (settings.SECTOR_BENCHMARKS, fcf_margin key). -/
def sectorBenchFcfMargin : String → ℚ
  | "Technology" => 3/20
  | "Healthcare" => 3/25
  | "Financial Services" => 1/5
  | "Energy" => 3/20
  | _ => 1/10

/-- Inner function compute_pv_components of calculate_dcf: ten explicit years
(growth fading linearly to terminal growth after year five, margin drifting
linearly to the target margin) plus the discounted terminal value.  Returns
(total present value, terminal present value). -/
def dcfPvComponents (effective_revenue op_margin target_margin safe_growth fcf : ℚ)
    (dr tg : ℚ) : ℚ × ℚ :=
  let step : (ℚ × ℚ × ℚ × ℚ) → ℕ → (ℚ × ℚ × ℚ × ℚ) := fun acc i =>
    let growth :=
      if i ≤ 5 then safe_growth
      else safe_growth - (safe_growth - tg) * (((i : ℚ) - 5) / 5)
    let temp_rev := acc.2.1 * (1 + growth)
    let temp_margin := acc.2.2.1 + (target_margin - op_margin) / 10
    let annual_fcf := temp_rev * temp_margin
    (acc.1 + annual_fcf / (1 + dr) ^ i, temp_rev, temp_margin, annual_fcf)
  let r := ([1, 2, 3, 4, 5, 6, 7, 8, 9, 10] : List ℕ).foldl step (0, effective_revenue, op_margin, fcf)
  let terminal_val := r.2.2.2 * (1 + tg) / (dr - tg)
  let terminal_pv := terminal_val / (1 + dr) ^ 10
  (r.1 + terminal_pv, terminal_pv)

/-- Claim-relevant projection of the calculate_dcf result dict (the
sensitivity range, terminal-growth grid and assumptions entries of the
OPERATIONAL branch are omitted; value, status and dominance are kept). -/
structure DcfResult where
  value : Option ℚ
  status : String
  terminal_value_dominance : ℚ
deriving DecidableEq, Repr

/-- Source file fundamentals_analytics.py,
IntrinsicValuationEngine.calculate_dcf: guard on non-positive FCF or missing
shares, growth cap, risk uplift of the discount rate, the ten-year staged
present value, and the dominance kill-switch at 50% returning
MATHEMATICALLY_ILL_POSED with a null value. -/
def calculate_dcf (fcf revenue_growth : ℚ) (shares : ℤ)
    (total_revenue fcf_margin : Option ℚ) (sector : String) : DcfResult :=
  if fcf ≤ 0 ∨ shares = 0 then
    { value := none, status := "FCF_NEGATIVE", terminal_value_dominance := 0 }
  else
    let effective_revenue := match total_revenue with
      | some tr => if tr > 0 then tr else fcf / (1/10)
      | none => fcf / (1/10)
    let growth_cap := min (1/4) (sectorBenchGrowth sector * (3/2))
    let safe_growth := min growth_cap revenue_growth
    let tg : ℚ := 3/100
    let op_margin := qOrElse fcf_margin (fcf / effective_revenue)
    let dr : ℚ := if op_margin < 1/10 then 1/10 + 3/100 else 1/10
    let target_margin := max (1/20) (min (1/4) ((op_margin + sectorBenchFcfMargin sector) / 2))
    let pv := dcfPvComponents effective_revenue op_margin target_margin safe_growth fcf dr tg
    let total_pv := pv.1
    let terminal_pv := pv.2
    let tv_dominance := if total_pv > 0 then terminal_pv / total_pv else 0
    if tv_dominance > 1/2 then
      { value := none, status := "MATHEMATICALLY_ILL_POSED",
        terminal_value_dominance := roundTo 1 (tv_dominance * 100) }
    else
      let fair_price := total_pv / (shares : ℚ)
      { value := some (roundTo 2 fair_price), status := "OPERATIONAL",
        terminal_value_dominance := roundTo 1 (tv_dominance * 100) }

-- ===== Concrete evaluation inputs used by the theorems =====

/-- Technicals record of a clean bullish setup with a tiny ATR (0.001): every
governor gate passes, the base confidence reaches 90, yet the synthetic
stop/target distance collapses against the 0.01 risk floor, so the
risk-reward check of _process_horizon fires. -/
def techTinyAtr : Technicals :=
  { rsi := some 50, macd_histogram := some 1, adx := some 30, atr := some (1/1000),
    atr_percent := some 1, cci := some 200, bb_position := some (1/20),
    volume_avg_20d := some 600000, volume_ratio := some (13/10),
    ema_20 := some 100, ema_50 := some 110, ema_200 := some 100,
    trend_structure := TrendDirection.bullish }

/-- Technicals record whose signal lands in the WAIT band (confluence 5 and a
consensus-without-ratings context give confidence 55 below the threshold 70)
while the overall score stays directionally bullish; cci is null. -/
def techWaitBullish : Technicals :=
  { rsi := some 50, macd_histogram := some 1, adx := some 25, atr := some 1,
    atr_percent := some 1, cci := none, bb_position := some (3/20),
    volume_avg_20d := some 600000, volume_ratio := some (11/10),
    ema_20 := some 100, ema_50 := some 110, ema_200 := some 100,
    trend_structure := TrendDirection.bullish }

/-- Technicals record with a bearish structure: the trend score of the
weighted engine is -75 and the overall score is below -20. -/
def techBearish : Technicals :=
  { rsi := some 80, macd_histogram := some (-1), adx := some 25, atr := some 1,
    atr_percent := some 1, cci := some (-102), bb_position := none,
    volume_avg_20d := some 600000, volume_ratio := some (11/10),
    ema_20 := some 100, ema_50 := some 90, ema_200 := some 100,
    trend_structure := TrendDirection.bearish }

/-- Technicals record with a null RSI: the governor declares the data
INVALID and the horizon is rejected outright. -/
def techNullRsi : Technicals := { rsi := none }

/-- Technicals record passing the scoring data gate in a trending regime:
bullish structure, ema_50 above ema_200, positive MACD histogram, RSI 50. -/
def techGated : Technicals :=
  { rsi := some 50, macd_histogram := some 1, adx := some 25, atr_percent := some 1,
    ema_50 := some 10, ema_200 := some 5, trend_structure := TrendDirection.bullish }

/-- Market context carrying a consensus but no analyst ratings, no options
data and no insider data. -/
def ctxConsensusOnly : MarketContext := { hasConsensus := true }

/-- Narrative result whose swing horizon reports confidence 90. -/
def aiSwing90 : AIAnalysis :=
  { swing := some { action := TradeAction.buy, confidence := 90,
                    entry_price := 1, target_price := 2, stop_loss := 3 } }

/-- Technical response of the conflicting-horizons scenario: bullish intraday
and swing signals against a bearish positional signal halve the swing WAIT
confidence 55 to 27.5. -/
def techRespConflict : TechResponseModel :=
  techAnalysis (some ctxConsensusOnly) "" 0 (some ⟨techWaitBullish, 100⟩)
    (some ⟨techWaitBullish, 100⟩) (some ⟨techBearish, 100⟩) none

/-- Technical response whose swing horizon is the bearish record (negative
trend component feeding the signal math). -/
def techRespBearishSwing : TechResponseModel :=
  techAnalysis none "" 0 none (some ⟨techBearish, 100⟩) none none

/-- Technical response with a rejected intraday horizon (null RSI) next to a
swing horizon whose confidence keeps the global confidence at 55. -/
def techRespRejectIntraday : TechResponseModel :=
  techAnalysis (some ctxConsensusOnly) "" 0 (some ⟨techNullRsi, 50⟩)
    (some ⟨techWaitBullish, 100⟩) none none

/-- One OHLCV bar (high 110, low 90, close 100). -/
def barSample : Bar := { openPrice := 100, high := 110, low := 90, close := 100, volume := 1000 }

/-- Indicator row in which every library column is NaN. -/
def allNanRow : IndicatorRow := {}

/-- Present horizon perspectives of a narrative block (the list the
confidence ceiling iterates over). -/
def aiHorizons (a : AIAnalysis) : List AIHorizon :=
  [a.intraday, a.swing, a.positional, a.longterm].filterMap id

-- ===== Helper lemmas =====

/-- Half-ulp bound for decimal rounding, satisfied by both the tie-to-even
rounding of the source and the tie-up rounding of the model. -/
theorem roundTo_sub_abs_le (k : ℕ) (q : ℚ) : |roundTo k q - q| ≤ 1 / (2 * 10 ^ k) := by
  have h10 : (0:ℚ) < (10:ℚ) ^ k := by positivity
  have h := abs_sub_round (q * (10:ℚ) ^ k)
  have heq : roundTo k q - q =
      (((round (q * (10:ℚ) ^ k) : ℤ) : ℚ) - q * (10:ℚ) ^ k) / (10:ℚ) ^ k := by
    unfold roundTo
    field_simp
    ring
  rw [heq, abs_div, abs_of_pos h10, div_le_div_iff₀ h10 (by positivity)]
  rw [abs_sub_comm] at h
  nlinarith [h]

/-- Nonnegativity of decimal rounding. -/
theorem roundTo_nonneg (k : ℕ) (q : ℚ) (hq : 0 ≤ q) : 0 ≤ roundTo k q := by
  have h10 : (0:ℚ) < (10:ℚ) ^ k := by positivity
  unfold roundTo
  apply div_nonneg _ (le_of_lt h10)
  have : (0:ℤ) ≤ round (q * (10:ℚ) ^ k) := by
    rw [round_eq]
    have : (0:ℚ) ≤ q * (10:ℚ) ^ k + 1/2 := by positivity
    exact Int.floor_nonneg.mpr (by linarith)
  exact_mod_cast this

/-- Monotonicity of decimal rounding. -/
theorem roundTo_le_of_le (k : ℕ) (q b : ℚ) (hq : q ≤ b) : roundTo k q ≤ roundTo k b := by
  have h10 : (0:ℚ) < (10:ℚ) ^ k := by positivity
  have hr : round (q * (10:ℚ) ^ k) ≤ round (b * (10:ℚ) ^ k) := by
    rw [round_eq, round_eq]
    exact Int.floor_le_floor (by nlinarith)
  unfold roundTo
  have hr' : ((round (q * (10:ℚ) ^ k) : ℤ) : ℚ) ≤ ((round (b * (10:ℚ) ^ k) : ℤ) : ℚ) := by
    exact_mod_cast hr
  gcongr

/-- Bounds of clampQ when the interval is proper. -/
theorem clampQ_bounds (v a b : ℚ) (hab : a ≤ b) :
    a ≤ clampQ v a b ∧ clampQ v a b ≤ b :=
  ⟨le_max_left _ _, max_le hab (min_le_left _ _)⟩

/-- Multiplying a bounded nonnegative size by a factor between 0 and 1 keeps
it bounded and nonnegative. -/
theorem mul_factor_bounds (s B f : ℚ) (hs : 0 ≤ s) (hB : s ≤ B)
    (hf0 : 0 ≤ f) (hf1 : f ≤ 1) : 0 ≤ s * f ∧ s * f ≤ B :=
  ⟨mul_nonneg hs hf0, le_trans (mul_le_of_le_one_right hs hf1) hB⟩

/-- Base confidence is clamped to the interval from 0 to 100. -/
theorem calcBaseConfidence_bounds (sig : AlgoSignal) (ctx : Option MarketContext) :
    0 ≤ calcBaseConfidence sig ctx ∧ calcBaseConfidence sig ctx ≤ 100 := by
  unfold calcBaseConfidence
  refine ⟨le_max_left _ _, max_le (by norm_num) (min_le_left _ _)⟩

/-- Confidence of every decision produced by QuantitativeTradingSystem.analyze
lies in the interval from 0 to 100. -/
theorem tsAnalyze_confidence_bounds (t : Technicals) (sig : AlgoSignal)
    (ctx : Option MarketContext) (f : Option FundamentalsAccrualData) (k : String) :
    0 ≤ (tsAnalyze t sig ctx f k).confidence ∧ (tsAnalyze t sig ctx f k).confidence ≤ 100 := by
  have hb := calcBaseConfidence_bounds sig ctx
  have h40 : 0 ≤ min (calcBaseConfidence sig ctx) 40 ∧
      min (calcBaseConfidence sig ctx) 40 ≤ 100 :=
    ⟨le_min hb.1 (by norm_num), le_trans (min_le_left _ _) hb.2⟩
  unfold tsAnalyze
  dsimp only
  split_ifs <;>
    simp only [createRejectDecision, createWaitDecision, createTradeDecision] <;>
    refine ⟨?_, ?_⟩ <;>
    linarith [hb.1, hb.2, h40.1, h40.2]

/-- Neither the risk-reward downgrade nor the WAIT nulling of _process_horizon
touches the decision confidence. -/
theorem processHorizon_dec_confidence (t : Technicals) (p : ℚ)
    (ctx : Option MarketContext) (k : String) :
    (processHorizon t p ctx k).dec.confidence =
      (tsAnalyze t (techCalculateAlgoSignal t) ctx none k).confidence := by
  unfold processHorizon
  dsimp only
  split_ifs <;> rfl

/-- Global confidence produced by the technical-analysis pipeline lies in the
interval from 0 to 100. -/
theorem techAnalysis_data_confidence_bounds (ctx : Option MarketContext) (k : String)
    (fb : ℚ) (hi hs hp hl : Option HorizonData) :
    0 ≤ (techAnalysis ctx k fb hi hs hp hl).data_confidence ∧
    (techAnalysis ctx k fb hi hs hp hl).data_confidence ≤ 100 := by
  unfold techAnalysis
  cases hpre : preScreen ctx with
  | some v => simp
  | none =>
    dsimp only
    have hconf : ∀ hd : HorizonData,
        0 ≤ (processHorizon hd.tech hd.current_price ctx k).dec.confidence ∧
        (processHorizon hd.tech hd.current_price ctx k).dec.confidence ≤ 100 := by
      intro hd
      rw [processHorizon_dec_confidence]
      exact tsAnalyze_confidence_bounds _ _ _ _ _
    cases hs with
    | none =>
      cases hi <;> cases hp <;> cases hl <;>
        simp only [Option.map_none', Option.map_some', Option.some_orElse',
          Option.none_orElse'] <;>
        norm_num
    | some hd =>
      have h := hconf hd
      simp only [Option.map_none', Option.map_some', Option.some_orElse']
      split_ifs <;> constructor <;> linarith [h.1, h.2]

/-- The data-state taxonomy has at most three entries (OPTIONS, INSIDER, and
one of TECHNICALS or CCI). -/
theorem taxonomyCount_le_three (ctx : Option MarketContext) (t : Option Technicals) :
    taxonomyCount ctx t ≤ 3 := by
  unfold taxonomyCount
  rcases ctx with _ | c <;> rcases t with _ | t <;> dsimp only <;>
    first | (split_ifs <;> norm_num) | norm_num

/-- The blindness caps keep the global confidence nonnegative and never raise
it (for at most three taxonomy entries). -/
theorem advancedGlobalConf_bounds (dc : ℚ) (integ : DataIntegrity) (m : ℕ)
    (h0 : 0 ≤ dc) (hm : m ≤ 3) :
    0 ≤ advancedGlobalConf dc integ m ∧ advancedGlobalConf dc integ m ≤ dc := by
  unfold advancedGlobalConf
  have hg0 : (0:ℚ) ≤ (if integ = DataIntegrity.degraded then min dc 40 else dc) := by
    split_ifs
    · exact le_min h0 (by norm_num)
    · exact h0
  have hgd : (if integ = DataIntegrity.degraded then min dc 40 else dc) ≤ dc := by
    split_ifs
    · exact min_le_left _ _
    · exact le_refl _
  have hmq : (m : ℚ) ≤ 3 := by exact_mod_cast hm
  have hmq0 : (0:ℚ) ≤ (m : ℚ) := by positivity
  have hf0 : (0:ℚ) ≤ 1 - (15/100) * m := by linarith
  have hf1 : (1:ℚ) - (15/100) * m ≤ 1 := by linarith
  set g := (if integ = DataIntegrity.degraded then min dc 40 else dc) with hGdef
  split_ifs with hmpos
  · exact ⟨mul_nonneg hg0 hf0,
      le_trans (mul_le_of_le_one_right hg0 hf1) hgd⟩
  · exact ⟨hg0, hgd⟩

/-- The liquidity adjustment keeps a nonnegative bounded size nonnegative and
bounded when the average volume is nonnegative. -/
theorem liquidityAdjust_bounds (s B : ℚ) (vol : Option ℚ) (hs : 0 ≤ s) (hB : s ≤ B)
    (hvol : ∀ v, vol = some v → 0 ≤ v) :
    0 ≤ liquidityAdjust s vol ∧ liquidityAdjust s vol ≤ B := by
  unfold liquidityAdjust
  rcases vol with _ | v
  · simp [qTruthy]
    exact ⟨hs, hB⟩
  · have hv : 0 ≤ v := hvol v rfl
    have hf0 : (0:ℚ) ≤ min 1 (v / 500000) := le_min (by norm_num) (by positivity)
    have hf1 : min 1 (v / 500000) ≤ 1 := min_le_left _ _
    have hmul := mul_factor_bounds s B _ hs hB hf0 hf1
    by_cases ht : qTruthy (some v)
    · rw [if_pos ht]
      dsimp only [Option.getD]
      split_ifs
      · exact ⟨le_min_iff.mpr ⟨hmul.1, by norm_num⟩, le_trans (min_le_left _ _) hmul.2⟩
      · exact hmul
    · rw [if_neg ht]
      exact ⟨hs, hB⟩

/-- The volatility adjustment keeps a nonnegative bounded size nonnegative and
bounded. -/
theorem volatilityAdjust_bounds (s B sl : ℚ) (hs : 0 ≤ s) (hB : s ≤ B) :
    0 ≤ volatilityAdjust s sl ∧ volatilityAdjust s sl ≤ B := by
  unfold volatilityAdjust
  split_ifs
  · exact mul_factor_bounds s B _ hs hB (by norm_num) (by norm_num)
  · exact ⟨hs, hB⟩

/-- The earnings lock keeps a nonnegative bounded size nonnegative and
bounded. -/
theorem earningsAdjust_bounds (s B : ℚ) (edays : Option ℤ) (hs : 0 ≤ s) (hB : s ≤ B) :
    0 ≤ earningsAdjust s edays ∧ earningsAdjust s edays ≤ B := by
  unfold earningsAdjust
  rcases edays with _ | d
  · exact ⟨hs, hB⟩
  · dsimp only
    split_ifs with hd
    · have h0 : (0:ℚ) ≤ (d : ℚ) / 21 := by
        have : (0:ℚ) ≤ (d:ℚ) := by exact_mod_cast hd.1
        positivity
      have h1 : (d:ℚ) / 21 ≤ 1 := by
        have : (d:ℚ) ≤ 21 := by exact_mod_cast hd.2
        linarith
      exact mul_factor_bounds s B _ hs hB h0 h1
    · exact ⟨hs, hB⟩

/-- Benchmark lookups at the Default sector. -/
theorem sectorBenchGrowth_default : sectorBenchGrowth "Default" = 1/10 := rfl

/-- Benchmark FCF margin at the Default sector. -/
theorem sectorBenchFcfMargin_default : sectorBenchFcfMargin "Default" = 1/10 := rfl

-- ===== Claim theorems =====

/-- Claim C1 (code bug): for a valuation with positive free cash flow (100),
positive share count (10), revenue 1000, revenue growth 0.25 and fcf margin
-0.08 in the Default sector, the engine computes a terminal-value dominance of
129.9% (above 85%), yet returns status MATHEMATICALLY_ILL_POSED with a null
value instead of the TERMINAL_VALUE_DOMINANT_WARNING with the value still
reported that the claim (and the repository's own test
test_step_5_valuation_math_nvda) requires; the code discards every DCF whose
dominance exceeds 50% and never emits the warning status. -/
theorem c1_dcf_kill_switch_code_bug :
    (calculate_dcf 100 (1/4) 10 (some 1000) (some (-2/25)) "Default").status =
      "MATHEMATICALLY_ILL_POSED" ∧
    (calculate_dcf 100 (1/4) 10 (some 1000) (some (-2/25)) "Default").value = none ∧
    (calculate_dcf 100 (1/4) 10 (some 1000) (some (-2/25)) "Default").terminal_value_dominance
      > 85 := by
  have h : calculate_dcf 100 (1/4) 10 (some 1000) (some (-2/25)) "Default" =
      { value := none, status := "MATHEMATICALLY_ILL_POSED",
        terminal_value_dominance := 1299/10 } := by
    norm_num [calculate_dcf, dcfPvComponents, sectorBenchGrowth_default,
      sectorBenchFcfMargin_default, qOrElse, qTruthy, roundTo, round_eq, List.foldl]
  rw [h]
  refine ⟨rfl, rfl, by norm_num⟩

/-- Claim C4 (counterexample): on a gated trending record (BULLISH structure,
ema_50 above ema_200, positive MACD histogram, RSI 50, quiet ATR) the engine
posterior is the additive 0.5 + 0.15 + 0.10 + 0.05 = 0.80, not the
multiplicative-odds posterior 23/33 of the spec procedure, and the emitted
momentum score differs accordingly from what the spec procedure would give. -/
theorem c4_bayesian_odds_counterexample :
    scoringPwin techGated = 4/5 ∧ specOddsPwin techGated = 23/33 ∧
    scoringPwin techGated ≠ specOddsPwin techGated ∧
    (scoringCalculateAlgoSignal techGated).momentum_score.value ≠
      (specOddsPwin techGated - 1/2) * 200 := by
  have h1 : scoringPwin techGated = 4/5 := by
    norm_num +decide [scoringPwin, techGated, qOrElse, qTruthy, clampQ]
  have h2 : specOddsPwin techGated = 23/33 := by
    norm_num +decide [specOddsPwin, techGated, qOrElse, qTruthy, clampQ]
  have h3 : (scoringCalculateAlgoSignal techGated).momentum_score.value =
      (scoringPwin techGated - 1/2) * 200 := by
    unfold scoringCalculateAlgoSignal
    rw [if_neg (by simp [techGated])]
  refine ⟨h1, h2, by rw [h1, h2]; norm_num, by rw [h3, h1, h2]; norm_num⟩

/-- Claim C4 (amended): for every Technicals record passing the data gate,
the engine computes the posterior additively from the prior 0.5 with
regime-selected increments (the scoringPwin procedure), clamps it to the
interval from 0.10 to 0.90, and reports the normalised posterior as the
momentum score and its decimal floor as the confluence score. -/
theorem c4_additive_posterior (t : Technicals)
    (h1 : t.rsi ≠ none) (h2 : t.macd_histogram ≠ none) (h3 : t.ema_50 ≠ none) :
    (scoringCalculateAlgoSignal t).momentum_score.value = (scoringPwin t - 1/2) * 200 ∧
    1/10 ≤ scoringPwin t ∧ scoringPwin t ≤ 9/10 ∧
    (scoringCalculateAlgoSignal t).confluence_score = ⌊scoringPwin t * 10⌋ := by
  have hb : 1/10 ≤ scoringPwin t ∧ scoringPwin t ≤ 9/10 := by
    unfold scoringPwin
    dsimp only
    exact clampQ_bounds _ _ _ (by norm_num)
  unfold scoringCalculateAlgoSignal
  rw [if_neg (by simp [h1, h2, h3])]
  exact ⟨rfl, hb.1, hb.2, rfl⟩

/-- Witness for the amended C4 theorem at the concrete gated record. -/
theorem c4_additive_posterior_witness :
    (scoringCalculateAlgoSignal techGated).momentum_score.value =
      (scoringPwin techGated - 1/2) * 200 ∧
    1/10 ≤ scoringPwin techGated ∧ scoringPwin techGated ≤ 9/10 ∧
    (scoringCalculateAlgoSignal techGated).confluence_score = ⌊scoringPwin techGated * 10⌋ :=
  c4_additive_posterior techGated (by simp [techGated]) (by simp [techGated]) (by simp [techGated])

/-- Claim C5 (counterexample): the indicator engine imported by the service
(technicals.py) applies no series-length gate: on a 49-row series, even with
every library column NaN, the returned record carries a non-null pivot
support level (computed from the last row), so the record is not all-null. -/
theorem c5_length_gate_counterexample :
    (List.replicate 49 barSample).length < 50 ∧
    (calcAdvTech allNanRow (List.replicate 49 barSample)).support_s1 = some 90 := by
  constructor
  · decide
  · have hlast : (List.replicate 49 barSample).getLastD
        { openPrice := 0, high := 0, low := 0, close := 0, volume := 0 } = barSample := by
      simp [List.getLastD_eq_getLast?, List.getLast?_eq_getLast]
    unfold calcAdvTech
    rw [hlast]
    norm_num +decide [barSample, allNanRow]

/-- Claim C5 (amended): only the technicals_indicators.py variant of the
engine has the length gate; for a series shorter than 50 rows it returns the
record with every numeric field null and both enums NEUTRAL. -/
theorem c5_indicators_variant_length_gate (series : List Bar) (mainResult : Technicals)
    (hlen : series.length < 50) :
    calcAdvTechGateTI series mainResult = emptyTechnicalsGate ∧
    (calcAdvTechGateTI series mainResult).rsi = none ∧
    (calcAdvTechGateTI series mainResult).cci = none ∧
    (calcAdvTechGateTI series mainResult).ema_200 = none ∧
    (calcAdvTechGateTI series mainResult).support_s1 = none ∧
    (calcAdvTechGateTI series mainResult).volume_ratio = none ∧
    (calcAdvTechGateTI series mainResult).rsi_signal = TrendDirection.neutral ∧
    (calcAdvTechGateTI series mainResult).trend_structure = TrendDirection.neutral := by
  have h : calcAdvTechGateTI series mainResult = emptyTechnicalsGate := by
    unfold calcAdvTechGateTI
    rw [if_pos (Or.inr hlen)]
  rw [h]
  exact ⟨rfl, rfl, rfl, rfl, rfl, rfl, rfl, rfl⟩

/-- Witness for the amended C5 theorem on the concrete 49-row series. -/
theorem c5_indicators_variant_length_gate_witness :
    calcAdvTechGateTI (List.replicate 49 barSample) emptyTechnicalsGate = emptyTechnicalsGate ∧
    (calcAdvTechGateTI (List.replicate 49 barSample) emptyTechnicalsGate).rsi = none ∧
    (calcAdvTechGateTI (List.replicate 49 barSample) emptyTechnicalsGate).cci = none ∧
    (calcAdvTechGateTI (List.replicate 49 barSample) emptyTechnicalsGate).ema_200 = none ∧
    (calcAdvTechGateTI (List.replicate 49 barSample) emptyTechnicalsGate).support_s1 = none ∧
    (calcAdvTechGateTI (List.replicate 49 barSample) emptyTechnicalsGate).volume_ratio = none ∧
    (calcAdvTechGateTI (List.replicate 49 barSample) emptyTechnicalsGate).rsi_signal =
      TrendDirection.neutral ∧
    (calcAdvTechGateTI (List.replicate 49 barSample) emptyTechnicalsGate).trend_structure =
      TrendDirection.neutral :=
  c5_indicators_variant_length_gate (List.replicate 49 barSample) emptyTechnicalsGate (by decide)

/-- Claim C6 (counterexample): the in-use engine nulls a computed CCI of 1000
although its magnitude does not exceed 5000 (the claim would retain it), and
nulls a volume ratio of 60 although it is neither negative nor above 100. -/
theorem c6_poison_threshold_counterexample :
    cciPoisonCheck (some 1000) = none ∧ ¬ (|(1000:ℚ)| > 5000) ∧
    volRatioPoisonCheck (some 60) = none ∧ ¬ ((60:ℚ) < 0 ∨ (60:ℚ) > 100) := by
  refine ⟨by norm_num [cciPoisonCheck], by norm_num,
    by norm_num [volRatioPoisonCheck], by norm_num⟩

/-- Claim C6 (amended): in the engine used by the service (technicals.py) the
final CCI is nulled exactly when its magnitude exceeds 500 and the volume
ratio exactly when it is negative or above 50; in the
technicals_indicators.py variant the thresholds are magnitude at least 5000
and the interval from 0 to 100. -/
theorem c6_poison_clamps (v : ℚ) :
    (cciPoisonCheck (some v) = none ↔ |v| > 500) ∧
    (volRatioPoisonCheck (some v) = none ↔ v < 0 ∨ v > 50) ∧
    (cciPoisonCheckTI (some v) = none ↔ |v| ≥ 5000) ∧
    (volRatioPoisonCheckTI (some v) = none ↔ v < 0 ∨ v > 100) := by
  unfold cciPoisonCheck volRatioPoisonCheck cciPoisonCheckTI volRatioPoisonCheckTI
  refine ⟨?_, ?_, ?_, ?_⟩ <;> dsimp only <;> split_ifs <;> simp_all

/-- Claim C10 (counterexample): a call with a negative price (price -100,
risk-per-share 1) has positive risk per share yet returns the negative size
-50, violating the claimed nonnegativity. -/
theorem c10_position_size_counterexample :
    ¬ ((1:ℚ) ≤ 0) ∧
    calculate_position_size defaultRiskParameters SetupState.valid (-100) 1 none none = -50 ∧
    calculate_position_size defaultRiskParameters SetupState.valid (-100) 1 none none < 0 := by
  have h : calculate_position_size defaultRiskParameters SetupState.valid (-100) 1 none none =
      -50 := by
    norm_num +decide [calculate_position_size, liquidityAdjust, volatilityAdjust,
      earningsAdjust, qTruthy, defaultRiskParameters, settingsMaxPositionPct,
      settingsMaxCapitalRiskPct, settingsDegradedPositionCap]
  rw [h]
  norm_num

/-- Claim C10 (amended): for every call with a positive price and a
nonnegative average volume (when provided), a non-positive risk per share
returns exactly 0, and otherwise the result is nonnegative, never exceeds
max_position_pct, and under a DEGRADED setup never exceeds max_position_pct
times degraded_position_cap, because each adjustment multiplies the
risk-capped base by a factor between 0 and 1 or takes a minimum. -/
theorem c10_position_size_bounds (params : RiskParameters) (state : SetupState)
    (price rps : ℚ) (vol : Option ℚ) (edays : Option ℤ)
    (hprice : 0 < price) (hvol : ∀ v, vol = some v → 0 ≤ v)
    (hmp : 0 ≤ params.max_position_pct) (hmr : 0 ≤ params.max_capital_risk_pct)
    (hcap0 : 0 ≤ params.degraded_position_cap) (hcap1 : params.degraded_position_cap ≤ 1) :
    (rps ≤ 0 → calculate_position_size params state price rps vol edays = 0) ∧
    0 ≤ calculate_position_size params state price rps vol edays ∧
    calculate_position_size params state price rps vol edays ≤ params.max_position_pct ∧
    (state = SetupState.degraded →
      calculate_position_size params state price rps vol edays ≤
        params.max_position_pct * params.degraded_position_cap) := by
  unfold calculate_position_size
  by_cases hrps : rps ≤ 0
  · rw [if_pos hrps]
    exact ⟨fun _ => rfl, le_refl 0, hmp, fun _ => mul_nonneg hmp hcap0⟩
  · rw [if_neg hrps]
    dsimp only
    set mp := (if state = SetupState.degraded then
        params.max_position_pct * params.degraded_position_cap
      else params.max_position_pct) with hmpdef
    have hmp0 : 0 ≤ mp := by
      rw [hmpdef]; split_ifs
      · exact mul_nonneg hmp hcap0
      · exact hmp
    have hmpb : mp ≤ params.max_position_pct := by
      rw [hmpdef]; split_ifs
      · exact mul_le_of_le_one_right hmp hcap1
      · exact le_refl _
    have hsl : 0 < rps / price := div_pos (lt_of_not_le hrps) hprice
    have hpbr : 0 ≤ params.max_capital_risk_pct / 100 * 100 / (rps / price) :=
      div_nonneg (by positivity) hsl.le
    have h0 : 0 ≤ min mp (params.max_capital_risk_pct / 100 * 100 / (rps / price)) :=
      le_min hmp0 hpbr
    have hb : min mp (params.max_capital_risk_pct / 100 * 100 / (rps / price)) ≤ mp :=
      min_le_left _ _
    have s1 := liquidityAdjust_bounds _ mp vol h0 hb hvol
    have s2 := volatilityAdjust_bounds _ mp (rps / price) s1.1 s1.2
    have s3 := earningsAdjust_bounds _ mp edays s2.1 s2.2
    refine ⟨fun h => absurd h hrps, s3.1, le_trans s3.2 hmpb, fun hdeg => ?_⟩
    have hmpeq : mp = params.max_position_pct * params.degraded_position_cap := by
      rw [hmpdef, if_pos hdeg]
    exact hmpeq ▸ s3.2

/-- Witness for the amended C10 theorem at a concrete DEGRADED low-volume
call. -/
theorem c10_position_size_bounds_witness :
    ((2:ℚ) ≤ 0 →
      calculate_position_size defaultRiskParameters SetupState.degraded 100 2 (some 50000) none = 0) ∧
    0 ≤ calculate_position_size defaultRiskParameters SetupState.degraded 100 2 (some 50000) none ∧
    calculate_position_size defaultRiskParameters SetupState.degraded 100 2 (some 50000) none ≤
      defaultRiskParameters.max_position_pct ∧
    (SetupState.degraded = SetupState.degraded →
      calculate_position_size defaultRiskParameters SetupState.degraded 100 2 (some 50000) none ≤
        defaultRiskParameters.max_position_pct * defaultRiskParameters.degraded_position_cap) :=
  c10_position_size_bounds defaultRiskParameters SetupState.degraded 100 2 (some 50000) none
    (by norm_num) (by intro v hv; injection hv with h; rw [← h]; norm_num)
    (by norm_num [defaultRiskParameters, settingsMaxPositionPct])
    (by norm_num [defaultRiskParameters, settingsMaxCapitalRiskPct])
    (by norm_num [defaultRiskParameters, settingsDegradedPositionCap])
    (by norm_num [defaultRiskParameters, settingsDegradedPositionCap])

-- ===== Concrete evaluation lemmas (stepwise, shared by several claims) =====

/-- Signal of the tiny-ATR record under the weighted engine. -/
def sigTinyAtr : AlgoSignal :=
  { overall_score := { value := 1307/20, min_value := -100, max_value := 100, label := "Strong Buy" },
    trend_score := { value := 86, min_value := -100, max_value := 100, label := "Bullish" },
    momentum_score := { value := 60, min_value := -100, max_value := 100, label := "Strong" },
    volatility_score := { value := 80, min_value := -100, max_value := 100, label := "Stable" },
    volume_score := { value := 15, min_value := -100, max_value := 100, label := "Accumulation" },
    volatility_risk := RiskLevel.low, trend_strength := "Strong", confluence_score := 10 }

/-- Evaluation of the weighted engine on the tiny-ATR record. -/
theorem eval_sig_tinyAtr : techCalculateAlgoSignal techTinyAtr = sigTinyAtr := by
  norm_num +decide [techCalculateAlgoSignal, techTinyAtr, sigTinyAtr, normScale,
    techConfluence, qOrElse, qTruthy, abs_eq_max_neg, min_def, max_def]

/-- ACCEPT decision on the tiny-ATR record (confidence 90, quality HIGH). -/
def decAcceptTinyAtr : TradingDecision :=
  { decision_state := DecisionState.accept, setup_state := SetupState.valid,
    confidence := 90, primary_reason := "Trade setup approved", violation_rules := [],
    position_size_pct := 5, max_capital_at_risk := 1/2000, risk_reward := 1/5,
    stop_loss := some (49999/500), take_profit := some (50001/500),
    tp_targets := some [50001/500, 25001/250], entry_zone := some (99, 101),
    setup_quality := some SetupQuality.high }

/-- Evaluation of the trading system on the tiny-ATR record. -/
theorem eval_dec_tinyAtr :
    tsAnalyze techTinyAtr sigTinyAtr none none "" = decAcceptTinyAtr := by
  norm_num +decide [tsAnalyze, techTinyAtr, sigTinyAtr, decAcceptTinyAtr,
    assess_data_integrity, apply_trading_rules, check_insider_trading, check_earnings_risk,
    check_accrual_quality, calcBaseConfidence, determineQuality, createTradeDecision,
    calculate_levels, calculate_position_size, liquidityAdjust, volatilityAdjust,
    earningsAdjust, calculate_capital_at_risk, qOrElse, qTruthy, roundTo, round_eq,
    defaultRiskParameters, settingsMaxPositionPct, settingsMaxCapitalRiskPct,
    settingsConfidenceThreshold, settingsAdxTrendThreshold, settingsDegradedPositionCap,
    abs_eq_max_neg, min_def, max_def]

/-- Horizon outcome of the tiny-ATR record: the risk-reward downgrade fires,
leaving a REJECT decision that retains confidence 90, quality HIGH and an
empty violation list. -/
def outTinyAtr : HorizonOutcome :=
  { setup :=
      { action := TradeAction.reject,
        confidence := { value := 90, min_value := 0, max_value := 100, label := "Very High" },
        entry_zone := none, stop_loss := none, stop_loss_pct := none,
        take_profit_targets := none, risk_reward := some 0, position_size_pct := some 5,
        max_capital_at_risk := some (1/2000), setup_state := SetupState.valid,
        setup_quality := some SetupQuality.high },
    tech := techTinyAtr, sig := sigTinyAtr,
    dec :=
      { decision_state := DecisionState.reject, setup_state := SetupState.valid,
        confidence := 90, primary_reason := "Mathematically Invalid: R:R below 1.0",
        violation_rules := [], position_size_pct := 5, max_capital_at_risk := 1/2000,
        risk_reward := 1/5, stop_loss := some (49999/500), take_profit := some (50001/500),
        tp_targets := some [50001/500, 25001/250], entry_zone := some (99, 101),
        setup_quality := some SetupQuality.high } }

/-- Evaluation of _process_horizon on the tiny-ATR record. -/
theorem eval_ph_tinyAtr : processHorizon techTinyAtr 100 none "" = outTinyAtr := by
  simp only [processHorizon, eval_sig_tinyAtr, eval_dec_tinyAtr]
  norm_num +decide [outTinyAtr, decAcceptTinyAtr, sigTinyAtr, techTinyAtr,
    calculate_levels, create_score_detail, confidence_label, qOrElse, qTruthy,
    abs_eq_max_neg, min_def, max_def]

/-- Signal of the WAIT-band bullish record. -/
def sigWaitBullish : AlgoSignal :=
  { overall_score := { value := 2475/43, min_value := -100, max_value := 100, label := "Strong Buy" },
    trend_score := { value := 85, min_value := -100, max_value := 100, label := "Bullish" },
    momentum_score := { value := 20, min_value := -100, max_value := 100, label := "Moderate" },
    volatility_score := { value := 80, min_value := -100, max_value := 100, label := "Stable" },
    volume_score := { value := 5, min_value := -100, max_value := 100, label := "Accumulation" },
    volatility_risk := RiskLevel.low, trend_strength := "Weak", confluence_score := 5 }

/-- Evaluation of the weighted engine on the WAIT-band bullish record. -/
theorem eval_sig_waitBullish : techCalculateAlgoSignal techWaitBullish = sigWaitBullish := by
  norm_num +decide [techCalculateAlgoSignal, techWaitBullish, sigWaitBullish, normScale,
    techConfluence, qOrElse, qTruthy, abs_eq_max_neg, min_def, max_def]

/-- WAIT decision at confidence 55 for the WAIT-band bullish record under the
consensus-without-ratings context. -/
def decWait55 : TradingDecision :=
  { decision_state := DecisionState.wait, setup_state := SetupState.valid,
    confidence := 55, primary_reason := "Insufficient signals or Low EV",
    violation_rules := [], position_size_pct := 0, max_capital_at_risk := 0,
    risk_reward := 0, stop_loss := none, take_profit := none, tp_targets := none,
    entry_zone := none, setup_quality := none }

/-- Evaluation of the trading system on the WAIT-band record with context. -/
theorem eval_dec_waitBullish :
    tsAnalyze techWaitBullish sigWaitBullish (some ctxConsensusOnly) none "" = decWait55 := by
  norm_num +decide [tsAnalyze, techWaitBullish, sigWaitBullish, decWait55, ctxConsensusOnly,
    assess_data_integrity, apply_trading_rules, check_insider_trading, check_earnings_risk,
    check_accrual_quality, calcBaseConfidence, determineQuality, createWaitDecision,
    qOrElse, qTruthy, defaultRiskParameters, settingsConfidenceThreshold,
    settingsAdxTrendThreshold, abs_eq_max_neg, min_def, max_def, isInternationalTicker]

/-- Horizon outcome of the WAIT-band record: a WAIT setup whose levels are
nulled and whose sizes are zero. -/
def outWaitBullish : HorizonOutcome :=
  { setup :=
      { action := TradeAction.wait,
        confidence := { value := 55, min_value := 0, max_value := 100, label := "Moderate" },
        entry_zone := none, stop_loss := none, stop_loss_pct := none,
        take_profit_targets := none, risk_reward := some 0, position_size_pct := some 0,
        max_capital_at_risk := some 0, setup_state := SetupState.invalid,
        setup_quality := none },
    tech := techWaitBullish, sig := sigWaitBullish,
    dec := { decWait55 with setup_state := SetupState.invalid } }

/-- Evaluation of _process_horizon on the WAIT-band record with context. -/
theorem eval_ph_waitBullish :
    processHorizon techWaitBullish 100 (some ctxConsensusOnly) "" = outWaitBullish := by
  simp only [processHorizon, eval_sig_waitBullish, eval_dec_waitBullish]
  norm_num +decide [outWaitBullish, decWait55, sigWaitBullish, techWaitBullish,
    calculate_levels, create_score_detail, confidence_label, qOrElse, qTruthy,
    abs_eq_max_neg, min_def, max_def]

/-- Signal of the bearish record (trend score -75, overall below -20). -/
def sigBearish : AlgoSignal :=
  { overall_score := { value := -501/20, min_value := -100, max_value := 100, label := "Hold/Neutral" },
    trend_score := { value := -75, min_value := -100, max_value := 100, label := "Bearish" },
    momentum_score := { value := -33, min_value := -100, max_value := 100, label := "Moderate" },
    volatility_score := { value := 80, min_value := -100, max_value := 100, label := "Stable" },
    volume_score := { value := 5, min_value := -100, max_value := 100, label := "Accumulation" },
    volatility_risk := RiskLevel.low, trend_strength := "Weak", confluence_score := 3 }

/-- Evaluation of the weighted engine on the bearish record. -/
theorem eval_sig_bearish : techCalculateAlgoSignal techBearish = sigBearish := by
  norm_num +decide [techCalculateAlgoSignal, techBearish, sigBearish, normScale,
    techConfluence, qOrElse, qTruthy, abs_eq_max_neg, min_def, max_def]

/-- WAIT decision at confidence 35 for the bearish record under the
consensus-without-ratings context. -/
def decWait35 : TradingDecision :=
  { decWait55 with confidence := 35 }

/-- Evaluation of the trading system on the bearish record with context. -/
theorem eval_dec_bearish :
    tsAnalyze techBearish sigBearish (some ctxConsensusOnly) none "" = decWait35 := by
  norm_num +decide [tsAnalyze, techBearish, sigBearish, decWait35, decWait55,
    ctxConsensusOnly, assess_data_integrity, apply_trading_rules, check_insider_trading,
    check_earnings_risk, check_accrual_quality, calcBaseConfidence, determineQuality,
    createWaitDecision, qOrElse, qTruthy, defaultRiskParameters,
    settingsConfidenceThreshold, settingsAdxTrendThreshold, abs_eq_max_neg, min_def,
    max_def, isInternationalTicker]

/-- Horizon outcome of the bearish record with context. -/
def outBearish : HorizonOutcome :=
  { setup :=
      { action := TradeAction.wait,
        confidence := { value := 35, min_value := 0, max_value := 100, label := "Low" },
        entry_zone := none, stop_loss := none, stop_loss_pct := none,
        take_profit_targets := none, risk_reward := some 0, position_size_pct := some 0,
        max_capital_at_risk := some 0, setup_state := SetupState.invalid,
        setup_quality := none },
    tech := techBearish, sig := sigBearish,
    dec := { decWait35 with setup_state := SetupState.invalid } }

/-- Evaluation of _process_horizon on the bearish record with context. -/
theorem eval_ph_bearish :
    processHorizon techBearish 100 (some ctxConsensusOnly) "" = outBearish := by
  simp only [processHorizon, eval_sig_bearish, eval_dec_bearish]
  norm_num +decide [outBearish, decWait35, decWait55, sigBearish, techBearish,
    calculate_levels, create_score_detail, confidence_label, qOrElse, qTruthy,
    abs_eq_max_neg, min_def, max_def]

/-- Signal of the null-RSI record (no valid weights, all zero scores). -/
def sigNullRsi : AlgoSignal :=
  { overall_score := { value := 0, min_value := -100, max_value := 100, label := "Hold/Neutral" },
    trend_score := { value := 0, min_value := -100, max_value := 100, label := "Bearish" },
    momentum_score := { value := 0, min_value := -100, max_value := 100, label := "Moderate" },
    volatility_score := { value := 0, min_value := -100, max_value := 100, label := "Volatile" },
    volume_score := { value := 0, min_value := -100, max_value := 100, label := "Distribution" },
    volatility_risk := RiskLevel.low, trend_strength := "Weak", confluence_score := 0 }

/-- Evaluation of the weighted engine on the null-RSI record. -/
theorem eval_sig_nullRsi : techCalculateAlgoSignal techNullRsi = sigNullRsi := by
  norm_num +decide [techCalculateAlgoSignal, techNullRsi, sigNullRsi, normScale,
    techConfluence, qOrElse, qTruthy, abs_eq_max_neg, min_def, max_def]

/-- REJECT decision for the null-RSI record (critical data missing). -/
def decRejectNullRsi : TradingDecision :=
  { decision_state := DecisionState.reject, setup_state := SetupState.invalid,
    confidence := 0, primary_reason := "Critical data missing",
    violation_rules := ["RULE_0_DATA_INTEGRITY"], position_size_pct := 0,
    max_capital_at_risk := 0, risk_reward := 0, stop_loss := none, take_profit := none,
    tp_targets := none, entry_zone := none, setup_quality := none }

/-- Evaluation of the trading system on the null-RSI record with context. -/
theorem eval_dec_nullRsi :
    tsAnalyze techNullRsi sigNullRsi (some ctxConsensusOnly) none "" = decRejectNullRsi := by
  norm_num +decide [tsAnalyze, techNullRsi, sigNullRsi, decRejectNullRsi, ctxConsensusOnly,
    assess_data_integrity, createRejectDecision, qOrElse, qTruthy, isInternationalTicker]

/-- Horizon outcome of the rejected null-RSI record at price 50: the setup
keeps the synthetic levels equal to the current price. -/
def outNullRsi : HorizonOutcome :=
  { setup :=
      { action := TradeAction.reject,
        confidence := { value := 0, min_value := 0, max_value := 100, label := "Very Low" },
        entry_zone := some (50, 50), stop_loss := some 50, stop_loss_pct := some 0,
        take_profit_targets := some [50], risk_reward := some 0, position_size_pct := some 0,
        max_capital_at_risk := some 0, setup_state := SetupState.invalid,
        setup_quality := none },
    tech := techNullRsi, sig := sigNullRsi, dec := decRejectNullRsi }

/-- Evaluation of _process_horizon on the null-RSI record at price 50. -/
theorem eval_ph_nullRsi :
    processHorizon techNullRsi 50 (some ctxConsensusOnly) "" = outNullRsi := by
  simp only [processHorizon, eval_sig_nullRsi, eval_dec_nullRsi]
  norm_num +decide [outNullRsi, decRejectNullRsi, sigNullRsi, techNullRsi,
    calculate_levels, create_score_detail, confidence_label, qOrElse, qTruthy,
    abs_eq_max_neg, min_def, max_def]

/-- WAIT decision at confidence 50 for the bearish record without context. -/
def decWait50 : TradingDecision :=
  { decWait55 with confidence := 50 }

/-- Evaluation of the trading system on the bearish record without context. -/
theorem eval_dec_bearishNone :
    tsAnalyze techBearish sigBearish none none "" = decWait50 := by
  norm_num +decide [tsAnalyze, techBearish, sigBearish, decWait50, decWait55,
    assess_data_integrity, apply_trading_rules, check_insider_trading, check_earnings_risk,
    check_accrual_quality, calcBaseConfidence, determineQuality, createWaitDecision,
    qOrElse, qTruthy, defaultRiskParameters, settingsConfidenceThreshold,
    settingsAdxTrendThreshold, abs_eq_max_neg, min_def, max_def, isInternationalTicker]

/-- Horizon outcome of the bearish record without context. -/
def outBearishNone : HorizonOutcome :=
  { setup :=
      { action := TradeAction.wait,
        confidence := { value := 50, min_value := 0, max_value := 100, label := "Moderate" },
        entry_zone := none, stop_loss := none, stop_loss_pct := none,
        take_profit_targets := none, risk_reward := some 0, position_size_pct := some 0,
        max_capital_at_risk := some 0, setup_state := SetupState.invalid,
        setup_quality := none },
    tech := techBearish, sig := sigBearish,
    dec := { decWait50 with setup_state := SetupState.invalid } }

/-- Evaluation of _process_horizon on the bearish record without context. -/
theorem eval_ph_bearishNone :
    processHorizon techBearish 100 none "" = outBearishNone := by
  simp only [processHorizon, eval_sig_bearish, eval_dec_bearishNone]
  norm_num +decide [outBearishNone, decWait50, decWait55, sigBearish, techBearish,
    calculate_levels, create_score_detail, confidence_label, qOrElse, qTruthy,
    abs_eq_max_neg, min_def, max_def]

/-- The pre-screen passes on the consensus-without-ratings context (no insider
activity, no earnings event). -/
theorem eval_preScreen_ctx : preScreen (some ctxConsensusOnly) = none := rfl

/-- Technical response of the rejected-intraday scenario, as a literal. -/
def respRejectIntraday : TechResponseModel :=
  { setupIntraday := some outNullRsi.setup, setupSwing := some outWaitBullish.setup,
    setupPositional := none, setupLongterm := none,
    data_confidence := 55, data_integrity := DataIntegrity.valid,
    technicals := some techWaitBullish, algo_signal := some sigWaitBullish,
    current_price := 100, trade_setup := outWaitBullish.setup,
    decision_state := DecisionState.wait }

/-- Evaluation of the technical-analysis pipeline on the rejected-intraday
scenario. -/
theorem eval_respRejectIntraday : techRespRejectIntraday = respRejectIntraday := by
  simp only [techRespRejectIntraday, techAnalysis, eval_preScreen_ctx,
    Option.map_some', Option.map_none', eval_ph_nullRsi, eval_ph_waitBullish]
  norm_num +decide [respRejectIntraday, outNullRsi, outWaitBullish, decRejectNullRsi,
    decWait55, signalDir, nullSetupLevels, rejectSetup, sigNullRsi, sigWaitBullish,
    Option.orElse, List.dedup, List.filterMap]

/-- Technical response of the conflicting-horizons scenario, as a literal: the
swing confidence 55 is halved to 27.5 by the directional conflict. -/
def respConflict : TechResponseModel :=
  { setupIntraday := some outWaitBullish.setup, setupSwing := some outWaitBullish.setup,
    setupPositional := some outBearish.setup, setupLongterm := none,
    data_confidence := 55/2, data_integrity := DataIntegrity.valid,
    technicals := some techWaitBullish, algo_signal := some sigWaitBullish,
    current_price := 100, trade_setup := outWaitBullish.setup,
    decision_state := DecisionState.wait }

/-- Evaluation of the technical-analysis pipeline on the conflicting-horizons
scenario. -/
theorem eval_respConflict : techRespConflict = respConflict := by
  simp only [techRespConflict, techAnalysis, eval_preScreen_ctx,
    Option.map_some', Option.map_none', eval_ph_waitBullish, eval_ph_bearish]
  norm_num +decide [respConflict, outWaitBullish, outBearish, decWait55, decWait35,
    signalDir, nullSetupLevels, rejectSetup, sigWaitBullish, sigBearish,
    Option.orElse, List.dedup, List.filterMap]

/-- Technical response of the bearish-swing scenario, as a literal. -/
def respBearishSwing : TechResponseModel :=
  { setupIntraday := none, setupSwing := some outBearishNone.setup,
    setupPositional := none, setupLongterm := none,
    data_confidence := 50, data_integrity := DataIntegrity.valid,
    technicals := some techBearish, algo_signal := some sigBearish,
    current_price := 100, trade_setup := outBearishNone.setup,
    decision_state := DecisionState.wait }

/-- Evaluation of the technical-analysis pipeline on the bearish-swing
scenario. -/
theorem eval_respBearishSwing : techRespBearishSwing = respBearishSwing := by
  simp only [techRespBearishSwing, techAnalysis, preScreen,
    Option.map_some', Option.map_none', eval_ph_bearishNone]
  norm_num +decide [respBearishSwing, outBearishNone, decWait50, decWait55,
    signalDir, nullSetupLevels, rejectSetup, sigBearish,
    Option.orElse, List.dedup, List.filterMap]

/-- Assembled response of the conflicting-horizons scenario with the swing-90
narrative: the ceiling 121/8 = 15.125 is applied to the narrative horizon
while system confidence is rounded to 151/10 = 15.1. -/
def r7resp : AdvancedResponseModel :=
  { system_confidence := 151/10, data_integrity := DataIntegrity.degraded,
    primary_signal := 109/200, comp_trend := 17/20, comp_momentum := 1/5,
    comp_expectancy := 0, comp_valuation := 1, hard_veto := false,
    is_authorized := false,
    ai := some { swing := some { action := TradeAction.buy, confidence := 121/8,
                                 entry_price := 0, target_price := 0, stop_loss := 0 } } }

/-- Evaluation of the response assembly on the conflicting-horizons scenario. -/
theorem eval_r7 :
    assembleAdvanced techRespConflict (some ctxConsensusOnly) (some aiSwing90) = r7resp := by
  simp only [eval_respConflict]
  norm_num +decide [assembleAdvanced, respConflict, r7resp, taxonomyCount,
    advancedGlobalConf, expectancyVal, primarySignal, signalComponents,
    enforceConfidenceCeiling, enforceHorizon, aiSwing90, ctxConsensusOnly,
    getEmptyAlgoSignal, sigWaitBullish, techWaitBullish, qTruthy, roundTo, round_eq,
    abs_eq_max_neg, min_def, max_def]

/-- Assembled response of the bearish-swing scenario: the reported trend
component is -0.75 while the primary signal floors the trend term at zero,
leaving a 0.225 discrepancy. -/
def r8resp : AdvancedResponseModel :=
  { system_confidence := 35, data_integrity := DataIntegrity.degraded,
    primary_signal := 23/125, comp_trend := -3/4, comp_momentum := -33/100,
    comp_expectancy := 0, comp_valuation := 1, hard_veto := false,
    is_authorized := false, ai := none }

/-- Evaluation of the response assembly on the bearish-swing scenario. -/
theorem eval_r8 : assembleAdvanced techRespBearishSwing none none = r8resp := by
  simp only [eval_respBearishSwing]
  norm_num +decide [assembleAdvanced, respBearishSwing, r8resp, taxonomyCount,
    advancedGlobalConf, expectancyVal, primarySignal, signalComponents,
    enforceConfidenceCeiling, enforceHorizon, getEmptyAlgoSignal, sigBearish,
    techBearish, qTruthy, roundTo, round_eq, abs_eq_max_neg, min_def, max_def]

/-- Claim C2 (counterexample): on the tiny-ATR horizon the risk-reward check
of _process_horizon relabels the ACCEPT decision as REJECT while leaving
confidence 90, quality HIGH and an empty violation list in place, violating
the REJECT invariant. -/
theorem c2_reject_invariant_counterexample :
    (processHorizon techTinyAtr 100 none "").dec.decision_state = DecisionState.reject ∧
    (processHorizon techTinyAtr 100 none "").dec.confidence = 90 ∧
    (processHorizon techTinyAtr 100 none "").dec.setup_quality = some SetupQuality.high ∧
    (processHorizon techTinyAtr 100 none "").dec.violation_rules = [] := by
  rw [eval_ph_tinyAtr]
  exact ⟨rfl, rfl, rfl, rfl⟩

/-- Claim C2 (amended): every REJECT decision produced by
QuantitativeTradingSystem.analyze has confidence 0, null quality and a
non-empty violation list; the invariant fails only for decisions downgraded
by the risk-reward check of _process_horizon, which relabels an ACCEPT
decision as REJECT without resetting those fields. -/
theorem c2_analyze_reject_invariant (t : Technicals) (sig : AlgoSignal)
    (ctx : Option MarketContext) (f : Option FundamentalsAccrualData) (k : String)
    (hr : (tsAnalyze t sig ctx f k).decision_state = DecisionState.reject) :
    (tsAnalyze t sig ctx f k).confidence = 0 ∧
    (tsAnalyze t sig ctx f k).setup_quality = none ∧
    (tsAnalyze t sig ctx f k).violation_rules ≠ [] := by
  unfold tsAnalyze at hr ⊢
  dsimp only at hr ⊢
  split_ifs at hr ⊢ <;>
    simp_all [createRejectDecision, createWaitDecision, createTradeDecision]

/-- Witness for the amended C2 invariant at the null-RSI record. -/
theorem c2_analyze_reject_invariant_witness :
    (tsAnalyze techNullRsi sigNullRsi (some ctxConsensusOnly) none "").decision_state =
      DecisionState.reject ∧
    ((tsAnalyze techNullRsi sigNullRsi (some ctxConsensusOnly) none "").confidence = 0 ∧
     (tsAnalyze techNullRsi sigNullRsi (some ctxConsensusOnly) none "").setup_quality = none ∧
     (tsAnalyze techNullRsi sigNullRsi (some ctxConsensusOnly) none "").violation_rules ≠ []) :=
  ⟨by simp [eval_dec_nullRsi, decRejectNullRsi],
   c2_analyze_reject_invariant _ _ _ _ _ (by simp [eval_dec_nullRsi, decRejectNullRsi])⟩

/-- Claim C3 (counterexample): the rejected intraday horizon of the assembled
response carries a REJECT setup whose stop loss, entry zone and take-profit
targets are all non-null (the synthetic levels at the current price 50). -/
theorem c3_reject_levels_counterexample :
    techRespRejectIntraday.setupIntraday = some outNullRsi.setup ∧
    outNullRsi.setup.action = TradeAction.reject ∧
    outNullRsi.setup.stop_loss = some 50 ∧
    outNullRsi.setup.entry_zone = some (50, 50) ∧
    outNullRsi.setup.take_profit_targets = some [50] := by
  refine ⟨?_, rfl, rfl, rfl, rfl⟩
  rw [eval_respRejectIntraday]
  rfl

/-- A WAIT setup leaving _process_horizon has nulled levels and zero sizes. -/
theorem processHorizon_wait_nulls (t : Technicals) (p : ℚ)
    (ctx : Option MarketContext) (k : String)
    (hw : (processHorizon t p ctx k).setup.action = TradeAction.wait) :
    (processHorizon t p ctx k).setup.entry_zone = none ∧
    (processHorizon t p ctx k).setup.stop_loss = none ∧
    (processHorizon t p ctx k).setup.take_profit_targets = none ∧
    (processHorizon t p ctx k).setup.position_size_pct = some 0 ∧
    (processHorizon t p ctx k).setup.max_capital_at_risk = some 0 := by
  unfold processHorizon at hw ⊢
  dsimp only at hw ⊢
  split_ifs at hw ⊢ <;> simp_all

/-- Claim C3 (amended): every WAIT setup in an assembled technical response
has null entry zone, stop loss and take-profit targets and zero position size
and capital at risk; REJECT setups are exempt, since the pipeline leaves the
synthetic levels (and, after a risk-reward downgrade, even the position size)
in place on them. -/
theorem c3_wait_setup_levels_nulled (ctx : Option MarketContext) (k : String)
    (fb : ℚ) (hi hs hp hl : Option HorizonData) (st : TradeSetup)
    (hmem : (techAnalysis ctx k fb hi hs hp hl).setupIntraday = some st ∨
            (techAnalysis ctx k fb hi hs hp hl).setupSwing = some st ∨
            (techAnalysis ctx k fb hi hs hp hl).setupPositional = some st ∨
            (techAnalysis ctx k fb hi hs hp hl).setupLongterm = some st)
    (hw : st.action = TradeAction.wait) :
    st.entry_zone = none ∧ st.stop_loss = none ∧ st.take_profit_targets = none ∧
    st.position_size_pct = some 0 ∧ st.max_capital_at_risk = some 0 := by
  rcases hpre : preScreen ctx with _ | v
  · simp only [techAnalysis, hpre] at hmem
    rcases hpd : hs.orElse (fun _ => hi.orElse (fun _ => hp.orElse (fun _ => hl)))
      with _ | pd <;>
      simp only [hpd] at hmem <;>
      rcases hmem with h | h | h | h <;>
      (rcases Option.map_eq_some'.mp h with ⟨oc, hoc, hst⟩
       rcases Option.map_eq_some'.mp hoc with ⟨hd, hhd, rfl⟩
       rw [← hst] at hw ⊢
       split_ifs at hw ⊢ <;>
         first
           | simp [nullSetupLevels]
           | exact processHorizon_wait_nulls _ _ _ _ hw)
  · simp only [techAnalysis, hpre] at hmem
    rcases hmem with h | h | h | h <;>
      (rw [Option.some_inj] at h; rw [← h] at hw; exact absurd hw (by decide))

/-- The per-horizon clamp of the authority layer never exceeds the ceiling. -/
theorem enforceHorizon_conf_le (g : ℚ) (b : Bool) (x : AIHorizon) :
    (enforceHorizon g b x).confidence ≤ g := by
  unfold enforceHorizon
  dsimp only
  split_ifs <;> exact min_le_right _ _

/-- Every horizon present after the confidence ceiling pass is clamped to the
ceiling. -/
theorem enforce_mem_conf_le (a0 : AIAnalysis) (g : ℚ) (b : Bool) (h : AIHorizon)
    (hm : h ∈ aiHorizons (enforceConfidenceCeiling a0 g b)) : h.confidence ≤ g := by
  simp only [aiHorizons, enforceConfidenceCeiling, List.mem_filterMap, id_eq] at hm
  rcases hm with ⟨o, ho, rfl⟩
  simp only [List.mem_cons, List.not_mem_nil, or_false] at ho
  rcases ho with ho | ho | ho | ho
  all_goals
    rcases Option.map_eq_some'.mp ho.symm with ⟨x, hx, hfx⟩
    rw [← hfx]
    exact enforceHorizon_conf_le g b x

/-- Every narrative horizon of an assembled response is clamped to the global
confidence before rounding. -/
theorem assembleAdvanced_ai_conf_le (tr : TechResponseModel)
    (ctx2 : Option MarketContext) (ai0 : Option AIAnalysis) (a : AIAnalysis)
    (h : AIHorizon)
    (hai : (assembleAdvanced tr ctx2 ai0).ai = some a) (hm : h ∈ aiHorizons a) :
    h.confidence ≤ advancedGlobalConf tr.data_confidence tr.data_integrity
      (taxonomyCount ctx2 tr.technicals) := by
  simp only [assembleAdvanced] at hai
  rcases Option.map_eq_some'.mp hai with ⟨a0, ha0, rfl⟩
  exact enforce_mem_conf_le _ _ _ _ hm

/-- Swing horizon of the conflict scenario after the authority clamp. -/
def aiSwingClamped : AIHorizon :=
  { action := TradeAction.buy, confidence := 121/8,
    entry_price := 0, target_price := 0, stop_loss := 0 }

/-- Narrative block of the conflict scenario after the authority clamp. -/
def aiConflictEnforced : AIAnalysis :=
  { swing := some aiSwingClamped }

/-- Claim C7 (counterexample): in the conflicting-horizons scenario the system
confidence rounds down to 15.1 while the enforced swing confidence stays at
the unrounded ceiling 15.125, exceeding system confidence by more than the
0.01 tolerance of the claim. -/
theorem c7_ceiling_counterexample :
    ∃ a hz,
      (assembleAdvanced techRespConflict (some ctxConsensusOnly) (some aiSwing90)).ai =
        some a ∧
      hz ∈ aiHorizons a ∧
      ¬ (hz.confidence ≤
          (assembleAdvanced techRespConflict (some ctxConsensusOnly)
            (some aiSwing90)).system_confidence + 1/100) := by
  refine ⟨aiConflictEnforced, aiSwingClamped, ?_, ?_, ?_⟩
  · rw [eval_r7]
    rfl
  · simp [aiHorizons, aiConflictEnforced]
  · rw [eval_r7]
    norm_num [r7resp, aiSwingClamped]

/-- Claim C7 (amended): for every assembled response of the pipeline, system
confidence lies in the interval from 0 to 100 and every narrative horizon
confidence is at most system confidence plus 0.05 (the 0.01 tolerance of the
claim is too tight because system confidence is rounded to one decimal digit
after the ceiling is applied, losing up to half an ulp = 0.05). -/
theorem c7_confidence_ceiling_bounds (ctx ctx2 : Option MarketContext) (k : String)
    (fb : ℚ) (hi hs hp hl : Option HorizonData) (ai0 : Option AIAnalysis)
    (a : AIAnalysis) (hz : AIHorizon)
    (hai : (assembleAdvanced (techAnalysis ctx k fb hi hs hp hl) ctx2 ai0).ai = some a)
    (hm : hz ∈ aiHorizons a) :
    0 ≤ (assembleAdvanced (techAnalysis ctx k fb hi hs hp hl) ctx2 ai0).system_confidence ∧
    (assembleAdvanced (techAnalysis ctx k fb hi hs hp hl) ctx2 ai0).system_confidence ≤ 100 ∧
    hz.confidence ≤
      (assembleAdvanced (techAnalysis ctx k fb hi hs hp hl) ctx2 ai0).system_confidence
        + 1/20 := by
  have hdc := techAnalysis_data_confidence_bounds ctx k fb hi hs hp hl
  have hm3 := taxonomyCount_le_three ctx2 (techAnalysis ctx k fb hi hs hp hl).technicals
  have hg := advancedGlobalConf_bounds (techAnalysis ctx k fb hi hs hp hl).data_confidence
    (techAnalysis ctx k fb hi hs hp hl).data_integrity
    (taxonomyCount ctx2 (techAnalysis ctx k fb hi hs hp hl).technicals) hdc.1 hm3
  have hconf := assembleAdvanced_ai_conf_le _ ctx2 ai0 a hz hai hm
  have hsys : (assembleAdvanced (techAnalysis ctx k fb hi hs hp hl) ctx2 ai0).system_confidence =
      roundTo 1 (advancedGlobalConf (techAnalysis ctx k fb hi hs hp hl).data_confidence
        (techAnalysis ctx k fb hi hs hp hl).data_integrity
        (taxonomyCount ctx2 (techAnalysis ctx k fb hi hs hp hl).technicals)) := rfl
  have hb := (abs_le.mp (roundTo_sub_abs_le 1
    (advancedGlobalConf (techAnalysis ctx k fb hi hs hp hl).data_confidence
      (techAnalysis ctx k fb hi hs hp hl).data_integrity
      (taxonomyCount ctx2 (techAnalysis ctx k fb hi hs hp hl).technicals)))).1
  norm_num at hb
  have h100 : roundTo 1 (100:ℚ) = 100 := by norm_num [roundTo, round_eq]
  refine ⟨?_, ?_, ?_⟩
  · rw [hsys]
    exact roundTo_nonneg 1 _ hg.1
  · rw [hsys]
    exact le_trans (roundTo_le_of_le 1 _ 100 (le_trans hg.2 hdc.2)) (le_of_eq h100)
  · rw [hsys]
    linarith [hb, hconf]

/-- Witness for the amended C7 bounds at the conflicting-horizons scenario. -/
theorem c7_confidence_ceiling_bounds_witness :
    ((assembleAdvanced (techAnalysis (some ctxConsensusOnly) "" 0
        (some ⟨techWaitBullish, 100⟩) (some ⟨techWaitBullish, 100⟩)
        (some ⟨techBearish, 100⟩) none) (some ctxConsensusOnly) (some aiSwing90)).ai =
      some aiConflictEnforced ∧
     aiSwingClamped ∈ aiHorizons aiConflictEnforced) ∧
    (0 ≤ (assembleAdvanced (techAnalysis (some ctxConsensusOnly) "" 0
        (some ⟨techWaitBullish, 100⟩) (some ⟨techWaitBullish, 100⟩)
        (some ⟨techBearish, 100⟩) none) (some ctxConsensusOnly)
        (some aiSwing90)).system_confidence ∧
     (assembleAdvanced (techAnalysis (some ctxConsensusOnly) "" 0
        (some ⟨techWaitBullish, 100⟩) (some ⟨techWaitBullish, 100⟩)
        (some ⟨techBearish, 100⟩) none) (some ctxConsensusOnly)
        (some aiSwing90)).system_confidence ≤ 100 ∧
     aiSwingClamped.confidence ≤
       (assembleAdvanced (techAnalysis (some ctxConsensusOnly) "" 0
          (some ⟨techWaitBullish, 100⟩) (some ⟨techWaitBullish, 100⟩)
          (some ⟨techBearish, 100⟩) none) (some ctxConsensusOnly)
          (some aiSwing90)).system_confidence + 1/20) := by
  have h : assembleAdvanced (techAnalysis (some ctxConsensusOnly) "" 0
      (some ⟨techWaitBullish, 100⟩) (some ⟨techWaitBullish, 100⟩)
      (some ⟨techBearish, 100⟩) none) (some ctxConsensusOnly) (some aiSwing90) =
      r7resp := eval_r7
  have hai : (assembleAdvanced (techAnalysis (some ctxConsensusOnly) "" 0
      (some ⟨techWaitBullish, 100⟩) (some ⟨techWaitBullish, 100⟩)
      (some ⟨techBearish, 100⟩) none) (some ctxConsensusOnly) (some aiSwing90)).ai =
      some aiConflictEnforced := by
    rw [h]
    rfl
  have hm : aiSwingClamped ∈ aiHorizons aiConflictEnforced := by
    simp [aiHorizons, aiConflictEnforced]
  exact ⟨⟨hai, hm⟩,
    c7_confidence_ceiling_bounds (some ctxConsensusOnly) (some ctxConsensusOnly) "" 0
      (some ⟨techWaitBullish, 100⟩) (some ⟨techWaitBullish, 100⟩)
      (some ⟨techBearish, 100⟩) none (some aiSwing90) _ _ hai hm⟩

/-- Arithmetic core of the signal-math tolerance: the primary signal differs
from the weighted sum of the reported components, with the trend component
floored at zero, by at most half an ulp of each rounding step. -/
theorem roundTo_signal_bound (tv mv e v : ℚ) :
    |roundTo 3 ((if tv > 0 then roundTo 3 (tv/100) else 0) * (3/10) +
        roundTo 3 (mv/100) * (2/10) + e * (25/100) + v * (25/100)) -
      (max (roundTo 2 (tv/100)) 0 * (3/10) + roundTo 2 (mv/100) * (2/10) +
        roundTo 2 e * (25/100) + v * (25/100))| ≤ 1/20 := by
  set S := (if tv > 0 then roundTo 3 (tv/100) else 0) * (3/10) +
    roundTo 3 (mv/100) * (2/10) + e * (25/100) + v * (25/100) with hS
  have h0 := abs_le.mp (roundTo_sub_abs_le 3 S)
  norm_num at h0
  have ht : |(if tv > 0 then roundTo 3 (tv/100) else 0) - max (roundTo 2 (tv/100)) 0| ≤
      11/2000 := by
    split_ifs with htv
    · have hx0 : (0:ℚ) ≤ tv/100 := le_of_lt (div_pos htv (by norm_num))
      rw [max_eq_left (roundTo_nonneg 2 _ hx0)]
      have h3 := abs_le.mp (roundTo_sub_abs_le 3 (tv/100))
      have h2 := abs_le.mp (roundTo_sub_abs_le 2 (tv/100))
      norm_num at h3 h2
      rw [abs_le]
      constructor <;> linarith
    · have hx0 : tv/100 ≤ 0 := by
        have h1 : tv ≤ 0 := le_of_not_lt htv
        linarith
      have hr0 : roundTo 2 (0:ℚ) = 0 := by norm_num [roundTo, round_eq]
      have h2 : roundTo 2 (tv/100) ≤ 0 := by
        have := roundTo_le_of_le 2 (tv/100) 0 hx0
        rw [hr0] at this
        exact this
      rw [max_eq_right h2]
      norm_num
  have hm : |roundTo 3 (mv/100) - roundTo 2 (mv/100)| ≤ 11/2000 := by
    have h3 := abs_le.mp (roundTo_sub_abs_le 3 (mv/100))
    have h2 := abs_le.mp (roundTo_sub_abs_le 2 (mv/100))
    norm_num at h3 h2
    rw [abs_le]
    constructor <;> linarith
  have he2 : |e - roundTo 2 e| ≤ 1/200 := by
    have h2 := abs_le.mp (roundTo_sub_abs_le 2 e)
    norm_num at h2
    rw [abs_le]
    constructor <;> linarith
  have hkey : roundTo 3 S -
      (max (roundTo 2 (tv/100)) 0 * (3/10) + roundTo 2 (mv/100) * (2/10) +
        roundTo 2 e * (25/100) + v * (25/100)) =
      (roundTo 3 S - S) +
      ((if tv > 0 then roundTo 3 (tv/100) else 0) - max (roundTo 2 (tv/100)) 0) * (3/10) +
      (roundTo 3 (mv/100) - roundTo 2 (mv/100)) * (2/10) +
      (e - roundTo 2 e) * (25/100) := by
    rw [hS]
    ring
  rw [abs_le] at ht hm he2 ⊢
  constructor <;> rw [hkey] <;>
    linarith [h0.1, h0.2, ht.1, ht.2, hm.1, hm.2, he2.1, he2.2]

/-- The primary signal tracks the weighted sum of the reported component
scores with the trend component floored at zero, to within 0.05. -/
theorem primarySignal_tolerance (sig : AlgoSignal) (ov : Bool) :
    |primarySignal sig ov -
      (max ((signalComponents sig ov).1) 0 * (3/10) +
       (signalComponents sig ov).2.1 * (2/10) +
       (signalComponents sig ov).2.2.1 * (25/100) +
       (signalComponents sig ov).2.2.2 * (25/100))| ≤ 1/20 := by
  unfold primarySignal signalComponents
  dsimp only
  exact roundTo_signal_bound sig.trend_score.value sig.momentum_score.value
    (expectancyVal sig) _

/-- Claim C8 (counterexample): in the bearish-swing scenario no HARD veto
exists, the primary signal is 0.184, yet the weighted sum of the reported
components is -0.041: the difference 0.225 exceeds the 0.05 tolerance, and
the primary signal is not -1.0 either (the source has no veto branch for the
signal strength at all). -/
theorem c8_signal_math_counterexample :
    (assembleAdvanced techRespBearishSwing none none).hard_veto = false ∧
    ¬ (|(assembleAdvanced techRespBearishSwing none none).primary_signal -
        ((assembleAdvanced techRespBearishSwing none none).comp_trend * (3/10) +
         (assembleAdvanced techRespBearishSwing none none).comp_momentum * (2/10) +
         (assembleAdvanced techRespBearishSwing none none).comp_expectancy * (25/100) +
         (assembleAdvanced techRespBearishSwing none none).comp_valuation * (25/100))| ≤
        1/20) ∧
    (assembleAdvanced techRespBearishSwing none none).primary_signal ≠ -1 := by
  rw [eval_r8]
  refine ⟨rfl, ?_, by norm_num [r8resp]⟩
  norm_num [r8resp, abs_eq_max_neg, min_def, max_def]

/-- Claim C8 (amended): for every assembled response, the primary signal
strength equals the weighted sum of the four reported component scores with
the trend component floored at zero (trend 0.3, momentum 0.2, expectancy
0.25, valuation 0.25) to within 0.05; there is no -1.0 override on a HARD
veto, and with a negative trend component the unfloored weighted sum can be
off by up to 0.3. -/
theorem c8_signal_weighted_sum_floored (tr : TechResponseModel)
    (ctx2 : Option MarketContext) (ai0 : Option AIAnalysis) :
    |(assembleAdvanced tr ctx2 ai0).primary_signal -
      (max ((assembleAdvanced tr ctx2 ai0).comp_trend) 0 * (3/10) +
       (assembleAdvanced tr ctx2 ai0).comp_momentum * (2/10) +
       (assembleAdvanced tr ctx2 ai0).comp_expectancy * (25/100) +
       (assembleAdvanced tr ctx2 ai0).comp_valuation * (25/100))| ≤ 1/20 := by
  simp only [assembleAdvanced]
  exact primarySignal_tolerance _ _

/-- The insider rule only ever appends its own rule code. -/
theorem check_insider_mem (s : String) (tracker : List String)
    (ctx : Option MarketContext) (h : s ∈ check_insider_trading tracker ctx) :
    s ∈ tracker ∨ s = "RULE_1_INSIDER_SELLS" := by
  cases ctx with
  | none => exact Or.inl h
  | some c =>
    simp only [check_insider_trading, trackerAdd] at h
    split_ifs at h
    · rcases List.mem_append.mp h with h | h
      · exact Or.inl h
      · exact Or.inr (by simpa using h)
    · exact Or.inl h
    · exact Or.inl h

/-- The earnings rule only ever appends its own rule code. -/
theorem check_earnings_mem (s : String) (tracker : List String)
    (ctx : Option MarketContext) (h : s ∈ check_earnings_risk tracker ctx) :
    s ∈ tracker ∨ s = "RULE_4_EARNINGS_PROXIMITY" := by
  cases ctx with
  | none => exact Or.inl h
  | some c =>
    simp only [check_earnings_risk, trackerAdd] at h
    rcases hev : c.events with _ | ev
    · rw [hev] at h
      exact Or.inl h
    · simp only [hev] at h
      rcases hd : ev.earningsInDays with _ | d
      · simp only [hd] at h
        exact Or.inl h
      · simp only [hd] at h
        split_ifs at h <;>
          first
            | exact Or.inl h
            | (rcases List.mem_append.mp h with h | h
               · exact Or.inl h
               · exact Or.inr (by simpa using h))

/-- Claim C9 (confirmed against the spec-modelled accrual analyzer): with net
income, operating cash flow and total assets all present and nonzero assets,
the trading-rules pass flags RULE_5_EARNINGS_QUALITY_LOW exactly when the
Sloan ratio exceeds 0.10.  AccrualQualityAnalyzer itself is absent from the
repository, so its ratio is modelled from the spec. -/
theorem c9_accrual_rule (t : Technicals) (ctx : Option MarketContext)
    (ni ocf ta : ℚ) (_hta : ta ≠ 0) :
    ("RULE_5_EARNINGS_QUALITY_LOW" ∈
      apply_trading_rules [] t ctx (some ⟨some ni, some ocf, some ta⟩)) ↔
    (ni - ocf) / ta > 1/10 := by
  have h1 : "RULE_5_EARNINGS_QUALITY_LOW" ∉ check_insider_trading [] ctx := by
    intro h
    rcases check_insider_mem _ _ _ h with h | h
    · exact (List.not_mem_nil _) h
    · exact absurd h (by decide)
  have h2 : "RULE_5_EARNINGS_QUALITY_LOW" ∉
      (match t.adx with
       | some a => if a < settingsAdxTrendThreshold
           then check_insider_trading [] ctx ++ ["RULE_2_ADX_TREND"]
           else check_insider_trading [] ctx
       | none => check_insider_trading [] ctx) := by
    rcases t.adx with _ | a
    · exact h1
    · dsimp only
      split_ifs
      · intro h
        rcases List.mem_append.mp h with h | h
        · exact h1 h
        · exact absurd h (by decide)
      · exact h1
  have h3 : "RULE_5_EARNINGS_QUALITY_LOW" ∉
      check_earnings_risk
        (match t.adx with
         | some a => if a < settingsAdxTrendThreshold
             then check_insider_trading [] ctx ++ ["RULE_2_ADX_TREND"]
             else check_insider_trading [] ctx
         | none => check_insider_trading [] ctx) ctx := by
    intro h
    rcases check_earnings_mem _ _ _ h with h | h
    · exact h2 h
    · exact absurd h (by decide)
  simp only [apply_trading_rules, check_accrual_quality, calculate_sloan_ratio,
    trackerAdd]
  by_cases hr : (ni - ocf) / ta > 1/10
  · rw [if_pos hr, if_pos rfl]
    constructor
    · exact fun _ => hr
    · exact fun _ => List.mem_append.mpr (Or.inr (List.mem_singleton.mpr rfl))
  · rw [if_neg hr, if_neg (by decide)]
    constructor
    · exact fun h => absurd h h3
    · exact fun hgt => absurd hgt hr

/-- Witness for the C9 accrual rule at net income 30, operating cash flow 10
and total assets 100 (Sloan ratio 0.2). -/
theorem c9_accrual_rule_witness :
    (100:ℚ) ≠ 0 ∧
    (("RULE_5_EARNINGS_QUALITY_LOW" ∈
        apply_trading_rules [] {} none (some ⟨some 30, some 10, some 100⟩)) ↔
      ((30:ℚ) - 10) / 100 > 1/10) :=
  ⟨by norm_num, c9_accrual_rule {} none 30 10 100 (by norm_num)⟩

/-- Witness for the amended C3 theorem at the swing WAIT setup of the
rejected-intraday scenario. -/
theorem c3_wait_setup_levels_nulled_witness :
    ((techAnalysis (some ctxConsensusOnly) "" 0 (some ⟨techNullRsi, 50⟩)
        (some ⟨techWaitBullish, 100⟩) none none).setupSwing = some outWaitBullish.setup ∧
     outWaitBullish.setup.action = TradeAction.wait) ∧
    (outWaitBullish.setup.entry_zone = none ∧ outWaitBullish.setup.stop_loss = none ∧
     outWaitBullish.setup.take_profit_targets = none ∧
     outWaitBullish.setup.position_size_pct = some 0 ∧
     outWaitBullish.setup.max_capital_at_risk = some 0) := by
  have hmem : (techAnalysis (some ctxConsensusOnly) "" 0 (some ⟨techNullRsi, 50⟩)
      (some ⟨techWaitBullish, 100⟩) none none).setupSwing = some outWaitBullish.setup := by
    have h : techAnalysis (some ctxConsensusOnly) "" 0 (some ⟨techNullRsi, 50⟩)
        (some ⟨techWaitBullish, 100⟩) none none = respRejectIntraday :=
      eval_respRejectIntraday
    rw [h]
    rfl
  exact ⟨⟨hmem, rfl⟩,
    c3_wait_setup_levels_nulled (some ctxConsensusOnly) "" 0 (some ⟨techNullRsi, 50⟩)
      (some ⟨techWaitBullish, 100⟩) none none outWaitBullish.setup
      (Or.inr (Or.inl hmem)) rfl⟩
